import Mathlib

set_option linter.unusedVariables false

set_option maxRecDepth 8000

/-!
Shallow embedding of the Aspeed GPIO controller model
(src/hw/gpio/aspeed_gpio.c, src/include/hw/gpio/aspeed_gpio.h):
the banked register file, the command-source arbitration, the edge/level
interrupt evaluation engine, the pin addressing logic, and the
memory-mapped register dispatch.  All 32-bit machine values are embedded
as `Nat`; C bitwise complement `~x` on a `uint32_t` is `UINT32_MAX ^^^ x`
and truncation is `% 2 ^ 32` where it matters.  Interrupt line activity
(`qemu_set_irq(s->output[bit], 1)`) is recorded as a list of
`(bit, level)` events produced by an operation.
-/

namespace AspeedGpio

/-- All-ones 32-bit value; C `~x` on `uint32_t` is `UINT32_MAX ^^^ x`. -/
def UINT32_MAX : Nat := 2 ^ 32 - 1

/-- C bitwise complement of a 32-bit value. -/
def compl32 (v : Nat) : Nat := UINT32_MAX ^^^ v

/-- `extract32(value, start, 1)`: the single bit `start` of `value` as 0 or 1.
The source uses only length-1 extractions. -/
def extract32 (value start : Nat) : Nat := (value >>> start) &&& 1

/-- `deposit32(value, start, 1, 1)`: set the single bit `start`.  On 32-bit
register values this equals `value ||| (1 <<< start)`. -/
def deposit32_one (value start : Nat) : Nat := value ||| (1 <<< start)

/-- C logical negation `!v` applied to a `uint32_t` value: 1 when `v` is zero,
0 otherwise.  The source's `aspeed_gpio_set_pin_level` computes
`data_read &= !mask` with this logical (not bitwise) negation. -/
def c_lognot (v : Nat) : Nat := if v = 0 then 1 else 0

def ASPEED_GPIOS_PER_REG : Nat := 32

def GPIO_REG_ARRAY_SIZE : Nat := 0x3d8 / 4

/-- GPIO source types. -/
def ASPEED_CMD_SRC_MASK : Nat := 0x01010101

def ASPEED_SOURCE_ARM : Nat := 0

/-- GPIO interrupt triggers. -/
def ASPEED_FALLING_EDGE : Nat := 0

def ASPEED_RISING_EDGE : Nat := 1

def ASPEED_LEVEL_LOW : Nat := 2

def ASPEED_LEVEL_HIGH : Nat := 3

def ASPEED_DUAL_EDGE : Nat := 4

/-- The fourteen 32-bit registers of one GPIO set (bank), from
`struct GPIORegs` in the header.  Zero defaults model the all-zero reset
state (`memset(s->sets, 0, sizeof(s->sets))`). -/
structure GPIORegs where
  data_value : Nat := 0
  data_read : Nat := 0
  direction : Nat := 0
  int_enable : Nat := 0
  int_sens_0 : Nat := 0
  int_sens_1 : Nat := 0
  int_sens_2 : Nat := 0
  int_status : Nat := 0
  reset_tol : Nat := 0
  cmd_source_0 : Nat := 0
  cmd_source_1 : Nat := 0
  debounce_1 : Nat := 0
  debounce_2 : Nat := 0
  input_mask : Nat := 0
deriving Repr, DecidableEq

/-- Per-set descriptor `GPIOSetProperties`: legal input bits, legal output
bits, and the four group labels. -/
structure GPIOSetProperties where
  input : Nat
  output : Nat
  set : List String
deriving Repr, DecidableEq

/-- `aspeed_evaluate_irq`: decode the 3-bit trigger mode at `bit`, detect the
edge between `prev_value_high` (the C caller passes `old & mask`) and the
current `data_value` bit, and set the sticky `int_status` bit when the
condition holds.  Returns the updated registers and whether the interrupt
fired (the C `return 1` / `return 0`). -/
def aspeed_evaluate_irq (regs : GPIORegs) (prev_value_high bit : Nat) :
    GPIORegs × Bool :=
  let int_trigger := extract32 regs.int_sens_0 bit |||
                     (extract32 regs.int_sens_1 bit <<< 1) |||
                     (extract32 regs.int_sens_2 bit <<< 2)
  let curr_pin_high := extract32 regs.data_value bit
  let rising_edge := curr_pin_high != 0 && prev_value_high == 0
  let falling_edge := curr_pin_high == 0 && prev_value_high != 0
  if (int_trigger == ASPEED_FALLING_EDGE && falling_edge) ||
     (int_trigger == ASPEED_RISING_EDGE && rising_edge) ||
     (int_trigger == ASPEED_LEVEL_LOW && curr_pin_high == 0) ||
     (int_trigger == ASPEED_LEVEL_HIGH && curr_pin_high != 0) ||
     (decide (ASPEED_DUAL_EDGE ≤ int_trigger) && (rising_edge || falling_edge)) then
    ({ regs with int_status := deposit32_one regs.int_status bit }, true)
  else
    (regs, false)

/-- One iteration of the `aspeed_gpio_update` loop, for a single `bit`:
skip unless the bit changed (`diff & mask`), is an output (`direction &
mask`) and is not suppressed (`input_mask & mask`); then commit the new bit
into `data_value` and run `aspeed_evaluate_irq`, recording a
`qemu_set_irq(s->output[bit], 1)` event when it fired.  `old`, `new_val`,
`direction` and `input_mask` are the values captured before the loop. -/
def aspeed_gpio_update_step (old new_val direction input_mask : Nat)
    (st : GPIORegs × List (Nat × Nat)) (bit : Nat) : GPIORegs × List (Nat × Nat) :=
  let mask := 1 <<< bit
  if (old ^^^ new_val) &&& mask = 0 then st
  else if direction &&& mask = 0 then st
  else if input_mask &&& mask ≠ 0 then st
  else
    let regs := if new_val &&& mask ≠ 0 then
        { st.1 with data_value := st.1.data_value ||| mask }
      else
        { st.1 with data_value := st.1.data_value &&& compl32 mask }
    let r := aspeed_evaluate_irq regs (old &&& mask) bit
    if r.2 then (r.1, st.2 ++ [(bit, 1)]) else (r.1, st.2)

/-- `aspeed_gpio_update`: early-return when nothing changed
(`diff == 0`) or no pin is an output (`direction == 0`); otherwise run the
per-bit loop over all 32 bits.  Returns the updated bank and the interrupt
events raised. -/
def aspeed_gpio_update (regs : GPIORegs) : GPIORegs × List (Nat × Nat) :=
  if regs.data_value ^^^ regs.data_read = 0 then (regs, [])
  else if regs.direction = 0 then (regs, [])
  else (List.range ASPEED_GPIOS_PER_REG).foldl
    (aspeed_gpio_update_step regs.data_value regs.data_read regs.direction
      regs.input_mask)
    (regs, [])

/-- The 2-bit command source owning the 8-bit group at bit offset `i`,
decoded from `cmd_source_0`/`cmd_source_1` exactly as in
`update_value_control_source`. -/
def cmd_source_of (regs : GPIORegs) (i : Nat) : Nat :=
  extract32 regs.cmd_source_0 i ||| (extract32 regs.cmd_source_1 i <<< 1)

/-- `update_value_control_source`: for each 8-bit group (bit offsets 0, 8,
16, 24), take the group's byte from `value` when the group's command source
equals the (always ARM) source, and from `old_value` otherwise. -/
def update_value_control_source (regs : GPIORegs) (old_value value : Nat) : Nat :=
  [0, 8, 16, 24].foldl (fun new_value i =>
    if ASPEED_SOURCE_ARM = cmd_source_of regs i then
      new_value ||| ((0xff <<< i) &&& value)
    else
      new_value ||| ((0xff <<< i) &&& old_value)) 0

/-- Reader helper functions. -/
def read_direction (regs : GPIORegs) : Nat := regs.direction

def read_data_value (regs : GPIORegs) : Nat := regs.data_value

def read_int_enable (regs : GPIORegs) : Nat := regs.int_enable

def read_int_sens_0 (regs : GPIORegs) : Nat := regs.int_sens_0

def read_int_sens_1 (regs : GPIORegs) : Nat := regs.int_sens_1

def read_int_sens_2 (regs : GPIORegs) : Nat := regs.int_sens_2

def read_int_status (regs : GPIORegs) : Nat := regs.int_status

def read_reset_tol (regs : GPIORegs) : Nat := regs.reset_tol

def read_debounce_1 (regs : GPIORegs) : Nat := regs.debounce_1

def read_debounce_2 (regs : GPIORegs) : Nat := regs.debounce_2

def read_cmd_source_0 (regs : GPIORegs) : Nat := regs.cmd_source_0

def read_cmd_source_1 (regs : GPIORegs) : Nat := regs.cmd_source_1

def read_data (regs : GPIORegs) : Nat := regs.data_read

def read_input_mask (regs : GPIORegs) : Nat := regs.input_mask

/-- Write helper `_write_data_value`: mask the value to the legal bits, merge
it into `data_read` under command-source arbitration, then run the
interrupt evaluation engine. -/
def write_data_value (regs : GPIORegs) (props : GPIOSetProperties) (val : Nat) :
    GPIORegs × List (Nat × Nat) :=
  aspeed_gpio_update { regs with
    data_read := update_value_control_source regs regs.data_read
      (val &&& (props.output ||| compl32 props.input)) }

/-- Write helper `_write_direction`. -/
def write_direction (regs : GPIORegs) (props : GPIOSetProperties) (val : Nat) :
    GPIORegs × List (Nat × Nat) :=
  aspeed_gpio_update { regs with
    direction := update_value_control_source regs regs.direction
      (val &&& (props.output ||| compl32 props.input)) }

/-- Write helper `_write_int_enable`. -/
def write_int_enable (regs : GPIORegs) (props : GPIOSetProperties) (val : Nat) :
    GPIORegs × List (Nat × Nat) :=
  aspeed_gpio_update { regs with
    int_enable := update_value_control_source regs regs.int_enable val }

/-- Write helper `_write_int_sens_0`. -/
def write_int_sens_0 (regs : GPIORegs) (props : GPIOSetProperties) (val : Nat) :
    GPIORegs × List (Nat × Nat) :=
  aspeed_gpio_update { regs with
    int_sens_0 := update_value_control_source regs regs.int_sens_0 val }

/-- Write helper `_write_int_sens_1`. -/
def write_int_sens_1 (regs : GPIORegs) (props : GPIOSetProperties) (val : Nat) :
    GPIORegs × List (Nat × Nat) :=
  aspeed_gpio_update { regs with
    int_sens_1 := update_value_control_source regs regs.int_sens_1 val }

/-- Write helper `_write_int_sens_2`. -/
def write_int_sens_2 (regs : GPIORegs) (props : GPIOSetProperties) (val : Nat) :
    GPIORegs × List (Nat × Nat) :=
  aspeed_gpio_update { regs with
    int_sens_2 := update_value_control_source regs regs.int_sens_2 val }

/-- Write helper `_write_int_status`: a direct, unarbitrated assignment,
followed by the evaluation engine. -/
def write_int_status (regs : GPIORegs) (props : GPIOSetProperties) (val : Nat) :
    GPIORegs × List (Nat × Nat) :=
  aspeed_gpio_update { regs with int_status := val }

/-- Write helper `_write_reset_tol` (no evaluation-engine call). -/
def write_reset_tol (regs : GPIORegs) (props : GPIOSetProperties) (val : Nat) :
    GPIORegs × List (Nat × Nat) :=
  ({ regs with reset_tol := update_value_control_source regs regs.reset_tol val }, [])

/-- Write helper `_write_debounce_1` (no evaluation-engine call). -/
def write_debounce_1 (regs : GPIORegs) (props : GPIOSetProperties) (val : Nat) :
    GPIORegs × List (Nat × Nat) :=
  ({ regs with debounce_1 := update_value_control_source regs regs.debounce_1 val }, [])

/-- Write helper `_write_debounce_2` (no evaluation-engine call). -/
def write_debounce_2 (regs : GPIORegs) (props : GPIOSetProperties) (val : Nat) :
    GPIORegs × List (Nat × Nat) :=
  ({ regs with debounce_2 := update_value_control_source regs regs.debounce_2 val }, [])

/-- Write helper `_write_cmd_source_0`: only the command-source bits 0, 8,
16, 24 are writable. -/
def write_cmd_source_0 (regs : GPIORegs) (props : GPIOSetProperties) (val : Nat) :
    GPIORegs × List (Nat × Nat) :=
  ({ regs with cmd_source_0 := val &&& ASPEED_CMD_SRC_MASK }, [])

/-- Write helper `_write_cmd_source_1`. -/
def write_cmd_source_1 (regs : GPIORegs) (props : GPIOSetProperties) (val : Nat) :
    GPIORegs × List (Nat × Nat) :=
  ({ regs with cmd_source_1 := val &&& ASPEED_CMD_SRC_MASK }, [])

/-- Write helper `_write_input_mask`: masked by the descriptor's legal input
bits, then the evaluation engine runs. -/
def write_input_mask (regs : GPIORegs) (props : GPIOSetProperties) (val : Nat) :
    GPIORegs × List (Nat × Nat) :=
  aspeed_gpio_update { regs with input_mask := val &&& props.input }

/-- GPIO register address offsets (3.3V), each macro value a word index
`byte_offset >> 2`, exactly as in the source. -/
def GPIO_ABCD_DATA_VALUE : Nat := 0x000 >>> 2

def GPIO_ABCD_DIRECTION : Nat := 0x004 >>> 2

def GPIO_ABCD_INT_ENABLE : Nat := 0x008 >>> 2

def GPIO_ABCD_INT_SENS_0 : Nat := 0x00C >>> 2

def GPIO_ABCD_INT_SENS_1 : Nat := 0x010 >>> 2

def GPIO_ABCD_INT_SENS_2 : Nat := 0x014 >>> 2

def GPIO_ABCD_INT_STATUS : Nat := 0x018 >>> 2

def GPIO_ABCD_RESET_TOLERANT : Nat := 0x01C >>> 2

def GPIO_EFGH_DATA_VALUE : Nat := 0x020 >>> 2

def GPIO_EFGH_DIRECTION : Nat := 0x024 >>> 2

def GPIO_EFGH_INT_ENABLE : Nat := 0x028 >>> 2

def GPIO_EFGH_INT_SENS_0 : Nat := 0x02C >>> 2

def GPIO_EFGH_INT_SENS_1 : Nat := 0x030 >>> 2

def GPIO_EFGH_INT_SENS_2 : Nat := 0x034 >>> 2

def GPIO_EFGH_INT_STATUS : Nat := 0x038 >>> 2

def GPIO_EFGH_RESET_TOL : Nat := 0x03C >>> 2

def GPIO_ABCD_DEBOUNCE_1 : Nat := 0x040 >>> 2

def GPIO_ABCD_DEBOUNCE_2 : Nat := 0x044 >>> 2

def GPIO_EFGH_DEBOUNCE_1 : Nat := 0x048 >>> 2

def GPIO_EFGH_DEBOUNCE_2 : Nat := 0x04C >>> 2

def GPIO_DEBOUNCE_TIME_1 : Nat := 0x050 >>> 2

def GPIO_DEBOUNCE_TIME_2 : Nat := 0x054 >>> 2

def GPIO_DEBOUNCE_TIME_3 : Nat := 0x058 >>> 2

def GPIO_ABCD_COMMAND_SRC_0 : Nat := 0x060 >>> 2

def GPIO_ABCD_COMMAND_SRC_1 : Nat := 0x064 >>> 2

def GPIO_EFGH_COMMAND_SRC_0 : Nat := 0x068 >>> 2

def GPIO_EFGH_COMMAND_SRC_1 : Nat := 0x06C >>> 2

def GPIO_IJKL_DATA_VALUE : Nat := 0x070 >>> 2

def GPIO_IJKL_DIRECTION : Nat := 0x074 >>> 2

def GPIO_MNOP_DATA_VALUE : Nat := 0x078 >>> 2

def GPIO_MNOP_DIRECTION : Nat := 0x07C >>> 2

def GPIO_QRST_DATA_VALUE : Nat := 0x080 >>> 2

def GPIO_QRST_DIRECTION : Nat := 0x084 >>> 2

def GPIO_UVWX_DATA_VALUE : Nat := 0x088 >>> 2

def GPIO_UWVX_DIRECTION : Nat := 0x08C >>> 2

def GPIO_IJKL_COMMAND_SRC_0 : Nat := 0x090 >>> 2

def GPIO_IJKL_COMMAND_SRC_1 : Nat := 0x094 >>> 2

def GPIO_IJKL_INT_ENABLE : Nat := 0x098 >>> 2

def GPIO_IJKL_INT_SENS_0 : Nat := 0x09C >>> 2

def GPIO_IJKL_INT_SENS_1 : Nat := 0x0A0 >>> 2

def GPIO_IJKL_INT_SENS_2 : Nat := 0x0A4 >>> 2

def GPIO_IJKL_INT_STATUS : Nat := 0x0A8 >>> 2

def GPIO_IJKL_RESET_TOLERANT : Nat := 0x0AC >>> 2

def GPIO_IJKL_DEBOUNCE_1 : Nat := 0x0B0 >>> 2

def GPIO_IJKL_DEBOUNCE_2 : Nat := 0x0B4 >>> 2

def GPIO_IJKL_INPUT_MASK : Nat := 0x0B8 >>> 2

def GPIO_ABCD_DATA_READ : Nat := 0x0C0 >>> 2

def GPIO_EFGH_DATA_READ : Nat := 0x0C4 >>> 2

def GPIO_IJKL_DATA_READ : Nat := 0x0C8 >>> 2

def GPIO_MNOP_DATA_READ : Nat := 0x0CC >>> 2

def GPIO_QRST_DATA_READ : Nat := 0x0D0 >>> 2

def GPIO_UVWX_DATA_READ : Nat := 0x0D4 >>> 2

def GPIO_YZAAAB_DATA_READ : Nat := 0x0D8 >>> 2

def GPIO_AC_DATA_READ : Nat := 0x0DC >>> 2

def GPIO_MNOP_COMMAND_SRC_0 : Nat := 0x0E0 >>> 2

def GPIO_MNOP_COMMAND_SRC_1 : Nat := 0x0E4 >>> 2

def GPIO_MNOP_INT_ENABLE : Nat := 0x0E8 >>> 2

def GPIO_MNOP_INT_SENS_0 : Nat := 0x0EC >>> 2

def GPIO_MNOP_INT_SENS_1 : Nat := 0x0F0 >>> 2

def GPIO_MNOP_INT_SENS_2 : Nat := 0x0F4 >>> 2

def GPIO_MNOP_INT_STATUS : Nat := 0x0F8 >>> 2

def GPIO_MNOP_RESET_TOLERANT : Nat := 0x0FC >>> 2

def GPIO_MNOP_DEBOUNCE_1 : Nat := 0x100 >>> 2

def GPIO_MNOP_DEBOUNCE_2 : Nat := 0x104 >>> 2

def GPIO_MNOP_INPUT_MASK : Nat := 0x108 >>> 2

def GPIO_QRST_COMMAND_SRC_0 : Nat := 0x110 >>> 2

def GPIO_QRST_COMMAND_SRC_1 : Nat := 0x114 >>> 2

def GPIO_QRST_INT_ENABLE : Nat := 0x118 >>> 2

def GPIO_QRST_INT_SENS_0 : Nat := 0x11C >>> 2

def GPIO_QRST_INT_SENS_1 : Nat := 0x120 >>> 2

def GPIO_QRST_INT_SENS_2 : Nat := 0x124 >>> 2

def GPIO_QRST_INT_STATUS : Nat := 0x128 >>> 2

def GPIO_QRST_RESET_TOLERANT : Nat := 0x12C >>> 2

def GPIO_QRST_DEBOUNCE_1 : Nat := 0x130 >>> 2

def GPIO_QRST_DEBOUNCE_2 : Nat := 0x134 >>> 2

def GPIO_QRST_INPUT_MASK : Nat := 0x138 >>> 2

def GPIO_UVWX_COMMAND_SRC_0 : Nat := 0x140 >>> 2

def GPIO_UVWX_COMMAND_SRC_1 : Nat := 0x144 >>> 2

def GPIO_UVWX_INT_ENABLE : Nat := 0x148 >>> 2

def GPIO_UVWX_INT_SENS_0 : Nat := 0x14C >>> 2

def GPIO_UVWX_INT_SENS_1 : Nat := 0x150 >>> 2

def GPIO_UVWX_INT_SENS_2 : Nat := 0x154 >>> 2

def GPIO_UVWX_INT_STATUS : Nat := 0x158 >>> 2

def GPIO_UVWX_RESET_TOLERANT : Nat := 0x15C >>> 2

def GPIO_UVWX_DEBOUNCE_1 : Nat := 0x160 >>> 2

def GPIO_UVWX_DEBOUNCE_2 : Nat := 0x164 >>> 2

def GPIO_UVWX_INPUT_MASK : Nat := 0x168 >>> 2

def GPIO_YZAAAB_COMMAND_SRC_0 : Nat := 0x170 >>> 2

def GPIO_YZAAAB_COMMAND_SRC_1 : Nat := 0x174 >>> 2

def GPIO_YZAAAB_INT_ENABLE : Nat := 0x178 >>> 2

def GPIO_YZAAAB_INT_SENS_0 : Nat := 0x17C >>> 2

def GPIO_YZAAAB_INT_SENS_1 : Nat := 0x180 >>> 2

def GPIO_YZAAAB_INT_SENS_2 : Nat := 0x184 >>> 2

def GPIO_YZAAAB_INT_STATUS : Nat := 0x188 >>> 2

def GPIO_YZAAAB_RESET_TOLERANT : Nat := 0x18C >>> 2

def GPIO_YZAAAB_DEBOUNCE_1 : Nat := 0x190 >>> 2

def GPIO_YZAAAB_DEBOUNCE_2 : Nat := 0x194 >>> 2

def GPIO_YZAAAB_INPUT_MASK : Nat := 0x198 >>> 2

def GPIO_AC_COMMAND_SRC_0 : Nat := 0x1A0 >>> 2

def GPIO_AC_COMMAND_SRC_1 : Nat := 0x1A4 >>> 2

def GPIO_AC_INT_ENABLE : Nat := 0x1A8 >>> 2

def GPIO_AC_INT_SENS_0 : Nat := 0x1AC >>> 2

def GPIO_AC_INT_SENS_1 : Nat := 0x1B0 >>> 2

def GPIO_AC_INT_SENS_2 : Nat := 0x1B4 >>> 2

def GPIO_AC_INT_STATUS : Nat := 0x1B8 >>> 2

def GPIO_AC_RESET_TOLERANT : Nat := 0x1BC >>> 2

def GPIO_AC_DEBOUNCE_1 : Nat := 0x1C0 >>> 2

def GPIO_AC_DEBOUNCE_2 : Nat := 0x1C4 >>> 2

def GPIO_AC_INPUT_MASK : Nat := 0x1C8 >>> 2

def GPIO_ABCD_INPUT_MASK : Nat := 0x1D0 >>> 2

def GPIO_EFGH_INPUT_MASK : Nat := 0x1D4 >>> 2

def GPIO_YZAAAB_DATA_VALUE : Nat := 0x1E0 >>> 2

def GPIO_YZAAAB_DIRECTION : Nat := 0x1E4 >>> 2

def GPIO_AC_DATA_VALUE : Nat := 0x1E8 >>> 2

def GPIO_AC_DIRECTION : Nat := 0x1EC >>> 2

/-- 1.8V register offsets: the source's HACK macros, actual offsets are the
3.3V ABCD/E offsets + 0x800, stored at table index `(offset - 0x600) >> 2`. -/
def GPIO_18_ABCD_DATA_VALUE : Nat := (0x800 - 0x600) >>> 2

def GPIO_18_ABCD_DIRECTION : Nat := (0x804 - 0x600) >>> 2

def GPIO_18_ABCD_INT_ENABLE : Nat := (0x808 - 0x600) >>> 2

def GPIO_18_ABCD_INT_SENS_0 : Nat := (0x80C - 0x600) >>> 2

def GPIO_18_ABCD_INT_SENS_1 : Nat := (0x810 - 0x600) >>> 2

def GPIO_18_ABCD_INT_SENS_2 : Nat := (0x814 - 0x600) >>> 2

def GPIO_18_ABCD_INT_STATUS : Nat := (0x818 - 0x600) >>> 2

def GPIO_18_ABCD_RESET_TOLERANT : Nat := (0x81C - 0x600) >>> 2

def GPIO_18_E_DATA_VALUE : Nat := (0x820 - 0x600) >>> 2

def GPIO_18_E_DIRECTION : Nat := (0x824 - 0x600) >>> 2

def GPIO_18_E_INT_ENABLE : Nat := (0x828 - 0x600) >>> 2

def GPIO_18_E_INT_SENS_0 : Nat := (0x82C - 0x600) >>> 2

def GPIO_18_E_INT_SENS_1 : Nat := (0x830 - 0x600) >>> 2

def GPIO_18_E_INT_SENS_2 : Nat := (0x834 - 0x600) >>> 2

def GPIO_18_E_INT_STATUS : Nat := (0x838 - 0x600) >>> 2

def GPIO_18_E_RESET_TOL : Nat := (0x83C - 0x600) >>> 2

def GPIO_18_ABCD_DEBOUNCE_1 : Nat := (0x840 - 0x600) >>> 2

def GPIO_18_ABCD_DEBOUNCE_2 : Nat := (0x844 - 0x600) >>> 2

def GPIO_18_E_DEBOUNCE_1 : Nat := (0x848 - 0x600) >>> 2

def GPIO_18_E_DEBOUNCE_2 : Nat := (0x84C - 0x600) >>> 2

def GPIO_18_DEBOUNCE_TIME_1 : Nat := (0x850 - 0x600) >>> 2

def GPIO_18_DEBOUNCE_TIME_2 : Nat := (0x854 - 0x600) >>> 2

def GPIO_18_DEBOUNCE_TIME_3 : Nat := (0x858 - 0x600) >>> 2

def GPIO_18_ABCD_COMMAND_SRC_0 : Nat := (0x860 - 0x600) >>> 2

def GPIO_18_ABCD_COMMAND_SRC_1 : Nat := (0x864 - 0x600) >>> 2

def GPIO_18_E_COMMAND_SRC_0 : Nat := (0x868 - 0x600) >>> 2

def GPIO_18_E_COMMAND_SRC_1 : Nat := (0x86C - 0x600) >>> 2

def GPIO_18_ABCD_DATA_READ : Nat := (0x8C0 - 0x600) >>> 2

def GPIO_18_E_DATA_READ : Nat := (0x8C4 - 0x600) >>> 2

def GPIO_18_ABCD_INPUT_MASK : Nat := (0x9D0 - 0x600) >>> 2

def GPIO_18_E_INPUT_MASK : Nat := (0x9D4 - 0x600) >>> 2

/-- Tag naming one of the fourteen reader helper functions; `applyGetter`
interprets it.  This embeds the source's getter function pointers. -/
inductive GPIOGetter where
  | direction | data_value | int_enable | int_sens_0 | int_sens_1 | int_sens_2
  | int_status | reset_tol | debounce_1 | debounce_2 | cmd_source_0 | cmd_source_1
  | data | input_mask
deriving Repr, DecidableEq

/-- Tag naming one of the thirteen write helper functions; `applySetter`
interprets it.  This embeds the source's setter function pointers. -/
inductive GPIOSetter where
  | data_value | direction | int_enable | int_sens_0 | int_sens_1 | int_sens_2
  | int_status | reset_tol | debounce_1 | debounce_2 | cmd_source_0 | cmd_source_1
  | input_mask
deriving Repr, DecidableEq

/-- Interpret a getter tag as the corresponding reader helper. -/
def applyGetter : GPIOGetter → GPIORegs → Nat
  | .direction => read_direction
  | .data_value => read_data_value
  | .int_enable => read_int_enable
  | .int_sens_0 => read_int_sens_0
  | .int_sens_1 => read_int_sens_1
  | .int_sens_2 => read_int_sens_2
  | .int_status => read_int_status
  | .reset_tol => read_reset_tol
  | .debounce_1 => read_debounce_1
  | .debounce_2 => read_debounce_2
  | .cmd_source_0 => read_cmd_source_0
  | .cmd_source_1 => read_cmd_source_1
  | .data => read_data
  | .input_mask => read_input_mask

/-- Interpret a setter tag as the corresponding write helper. -/
def applySetter : GPIOSetter → GPIORegs → GPIOSetProperties → Nat →
    GPIORegs × List (Nat × Nat)
  | .data_value => write_data_value
  | .direction => write_direction
  | .int_enable => write_int_enable
  | .int_sens_0 => write_int_sens_0
  | .int_sens_1 => write_int_sens_1
  | .int_sens_2 => write_int_sens_2
  | .int_status => write_int_status
  | .reset_tol => write_reset_tol
  | .debounce_1 => write_debounce_1
  | .debounce_2 => write_debounce_2
  | .cmd_source_0 => write_cmd_source_0
  | .cmd_source_1 => write_cmd_source_1
  | .input_mask => write_input_mask

/-- One entry of the register dispatch table `struct AspeedGPIO`:
the set (bank) index and optional getter/setter (NULL pointers are
`none`).  The DEBOUNCE_TIME entry stores `-1` as `uint16_t`, i.e. 0xffff. -/
structure AspeedGPIOEntry where
  set_idx : Nat
  get : Option GPIOGetter
  set : Option GPIOSetter
deriving Repr, DecidableEq

set_option maxHeartbeats 1000000

/-- The fourteen dispatch entries of one register bank, in the source's
per-set order (data value, direction, int enable, the three sensitivity
registers, int status, reset tolerance, the two debounce registers, the two
command source registers, data read, input mask); the data-read slot has no
setter (`NULL`). -/
def bank_entries (set_idx dv dir ie s0 s1 s2 ist rt db1 db2 cs0 cs1 dr im : Nat) :
    List (Nat × AspeedGPIOEntry) := [
  (dv, ⟨set_idx, some .data_value, some .data_value⟩),
  (dir, ⟨set_idx, some .direction, some .direction⟩),
  (ie, ⟨set_idx, some .int_enable, some .int_enable⟩),
  (s0, ⟨set_idx, some .int_sens_0, some .int_sens_0⟩),
  (s1, ⟨set_idx, some .int_sens_1, some .int_sens_1⟩),
  (s2, ⟨set_idx, some .int_sens_2, some .int_sens_2⟩),
  (ist, ⟨set_idx, some .int_status, some .int_status⟩),
  (rt, ⟨set_idx, some .reset_tol, some .reset_tol⟩),
  (db1, ⟨set_idx, some .debounce_1, some .debounce_1⟩),
  (db2, ⟨set_idx, some .debounce_2, some .debounce_2⟩),
  (cs0, ⟨set_idx, some .cmd_source_0, some .cmd_source_0⟩),
  (cs1, ⟨set_idx, some .cmd_source_1, some .cmd_source_1⟩),
  (dr, ⟨set_idx, some .data, none⟩),
  (im, ⟨set_idx, some .input_mask, some .input_mask⟩)]

/-- The designated initializers of the `gpios` array: eight 3.3V banks, the
unbacked DEBOUNCE_TIME slot (`{-1, NULL, NULL}` with a `uint16_t` set index),
and the two 1.8V banks, in source order. -/
def gpios_table : List (Nat × AspeedGPIOEntry) :=
  bank_entries 0 GPIO_ABCD_DATA_VALUE GPIO_ABCD_DIRECTION GPIO_ABCD_INT_ENABLE
    GPIO_ABCD_INT_SENS_0 GPIO_ABCD_INT_SENS_1 GPIO_ABCD_INT_SENS_2
    GPIO_ABCD_INT_STATUS GPIO_ABCD_RESET_TOLERANT GPIO_ABCD_DEBOUNCE_1
    GPIO_ABCD_DEBOUNCE_2 GPIO_ABCD_COMMAND_SRC_0 GPIO_ABCD_COMMAND_SRC_1
    GPIO_ABCD_DATA_READ GPIO_ABCD_INPUT_MASK ++
  bank_entries 1 GPIO_EFGH_DATA_VALUE GPIO_EFGH_DIRECTION GPIO_EFGH_INT_ENABLE
    GPIO_EFGH_INT_SENS_0 GPIO_EFGH_INT_SENS_1 GPIO_EFGH_INT_SENS_2
    GPIO_EFGH_INT_STATUS GPIO_EFGH_RESET_TOL GPIO_EFGH_DEBOUNCE_1
    GPIO_EFGH_DEBOUNCE_2 GPIO_EFGH_COMMAND_SRC_0 GPIO_EFGH_COMMAND_SRC_1
    GPIO_EFGH_DATA_READ GPIO_EFGH_INPUT_MASK ++
  bank_entries 2 GPIO_IJKL_DATA_VALUE GPIO_IJKL_DIRECTION GPIO_IJKL_INT_ENABLE
    GPIO_IJKL_INT_SENS_0 GPIO_IJKL_INT_SENS_1 GPIO_IJKL_INT_SENS_2
    GPIO_IJKL_INT_STATUS GPIO_IJKL_RESET_TOLERANT GPIO_IJKL_DEBOUNCE_1
    GPIO_IJKL_DEBOUNCE_2 GPIO_IJKL_COMMAND_SRC_0 GPIO_IJKL_COMMAND_SRC_1
    GPIO_IJKL_DATA_READ GPIO_IJKL_INPUT_MASK ++
  bank_entries 3 GPIO_MNOP_DATA_VALUE GPIO_MNOP_DIRECTION GPIO_MNOP_INT_ENABLE
    GPIO_MNOP_INT_SENS_0 GPIO_MNOP_INT_SENS_1 GPIO_MNOP_INT_SENS_2
    GPIO_MNOP_INT_STATUS GPIO_MNOP_RESET_TOLERANT GPIO_MNOP_DEBOUNCE_1
    GPIO_MNOP_DEBOUNCE_2 GPIO_MNOP_COMMAND_SRC_0 GPIO_MNOP_COMMAND_SRC_1
    GPIO_MNOP_DATA_READ GPIO_MNOP_INPUT_MASK ++
  bank_entries 4 GPIO_QRST_DATA_VALUE GPIO_QRST_DIRECTION GPIO_QRST_INT_ENABLE
    GPIO_QRST_INT_SENS_0 GPIO_QRST_INT_SENS_1 GPIO_QRST_INT_SENS_2
    GPIO_QRST_INT_STATUS GPIO_QRST_RESET_TOLERANT GPIO_QRST_DEBOUNCE_1
    GPIO_QRST_DEBOUNCE_2 GPIO_QRST_COMMAND_SRC_0 GPIO_QRST_COMMAND_SRC_1
    GPIO_QRST_DATA_READ GPIO_QRST_INPUT_MASK ++
  bank_entries 5 GPIO_UVWX_DATA_VALUE GPIO_UWVX_DIRECTION GPIO_UVWX_INT_ENABLE
    GPIO_UVWX_INT_SENS_0 GPIO_UVWX_INT_SENS_1 GPIO_UVWX_INT_SENS_2
    GPIO_UVWX_INT_STATUS GPIO_UVWX_RESET_TOLERANT GPIO_UVWX_DEBOUNCE_1
    GPIO_UVWX_DEBOUNCE_2 GPIO_UVWX_COMMAND_SRC_0 GPIO_UVWX_COMMAND_SRC_1
    GPIO_UVWX_DATA_READ GPIO_UVWX_INPUT_MASK ++
  bank_entries 6 GPIO_YZAAAB_DATA_VALUE GPIO_YZAAAB_DIRECTION
    GPIO_YZAAAB_INT_ENABLE GPIO_YZAAAB_INT_SENS_0 GPIO_YZAAAB_INT_SENS_1
    GPIO_YZAAAB_INT_SENS_2 GPIO_YZAAAB_INT_STATUS GPIO_YZAAAB_RESET_TOLERANT
    GPIO_YZAAAB_DEBOUNCE_1 GPIO_YZAAAB_DEBOUNCE_2 GPIO_YZAAAB_COMMAND_SRC_0
    GPIO_YZAAAB_COMMAND_SRC_1 GPIO_YZAAAB_DATA_READ GPIO_YZAAAB_INPUT_MASK ++
  bank_entries 7 GPIO_AC_DATA_VALUE GPIO_AC_DIRECTION GPIO_AC_INT_ENABLE
    GPIO_AC_INT_SENS_0 GPIO_AC_INT_SENS_1 GPIO_AC_INT_SENS_2
    GPIO_AC_INT_STATUS GPIO_AC_RESET_TOLERANT GPIO_AC_DEBOUNCE_1
    GPIO_AC_DEBOUNCE_2 GPIO_AC_COMMAND_SRC_0 GPIO_AC_COMMAND_SRC_1
    GPIO_AC_DATA_READ GPIO_AC_INPUT_MASK ++
  [(GPIO_DEBOUNCE_TIME_1, ⟨0xffff, none, none⟩)] ++
  bank_entries 0 GPIO_18_ABCD_DATA_VALUE GPIO_18_ABCD_DIRECTION
    GPIO_18_ABCD_INT_ENABLE GPIO_18_ABCD_INT_SENS_0 GPIO_18_ABCD_INT_SENS_1
    GPIO_18_ABCD_INT_SENS_2 GPIO_18_ABCD_INT_STATUS GPIO_18_ABCD_RESET_TOLERANT
    GPIO_18_ABCD_DEBOUNCE_1 GPIO_18_ABCD_DEBOUNCE_2 GPIO_18_ABCD_COMMAND_SRC_0
    GPIO_18_ABCD_COMMAND_SRC_1 GPIO_18_ABCD_DATA_READ GPIO_18_ABCD_INPUT_MASK ++
  bank_entries 1 GPIO_18_E_DATA_VALUE GPIO_18_E_DIRECTION GPIO_18_E_INT_ENABLE
    GPIO_18_E_INT_SENS_0 GPIO_18_E_INT_SENS_1 GPIO_18_E_INT_SENS_2
    GPIO_18_E_INT_STATUS GPIO_18_E_RESET_TOL GPIO_18_E_DEBOUNCE_1
    GPIO_18_E_DEBOUNCE_2 GPIO_18_E_COMMAND_SRC_0 GPIO_18_E_COMMAND_SRC_1
    GPIO_18_E_DATA_READ GPIO_18_E_INPUT_MASK

/-- The dispatch array `gpios`, as a total function on indices.  Array slots
without an initializer are the zero entry `{0, NULL, NULL}`; the C code also
reads `gpios[offset]` at out-of-bounds offsets (undefined behaviour in C),
which this model resolves to the same empty entry. -/
def gpios (i : Nat) : AspeedGPIOEntry :=
  (gpios_table.lookup i).getD ⟨0, none, none⟩

/-- `aspeed_offset_to_idx`: offsets not above `GPIO_REG_ARRAY_SIZE` map to
`offset >> 2`; otherwise offsets in `[0x800, 0x9D8)` map to
`(offset - 600) >> 2` (the source subtracts decimal 600 here, unlike its
own macro table which subtracts 0x600); anything else is the out-of-bounds
sentinel `(uint64_t)-1`, modelled as `none`. -/
def aspeed_offset_to_idx (offset : Nat) : Option Nat :=
  if GPIO_REG_ARRAY_SIZE < offset then
    if 0x800 ≤ offset ∧ offset < 0x9D8 then
      some ((offset - 600) >>> 2)
    else
      none
  else
    some (offset >>> 2)

/-- Per-chip-generation controller descriptor. -/
structure AspeedGPIOController where
  name : String
  props : List GPIOSetProperties
  nr_gpio_pins : Nat
  nr_gpio_sets : Nat
  gap : Nat := 0
deriving Repr, DecidableEq

/-- The whole controller state: descriptor plus the banks.  `sets` is total
over bank indices; only indices below 8 (`ASPEED_GPIO_MAX_NR_SETS`) are
meaningful. -/
structure AspeedGPIOState where
  ctrl : AspeedGPIOController
  sets : Nat → GPIORegs

/-- `aspeed_gpio_read`: reject non-4-byte sizes, translate the offset, fail
to 0 when the translation fails or the entry has no getter, otherwise apply
the getter to the bank selected by the entry.  Note the source indexes
`gpios` with the raw byte `offset`, not with the computed `idx`. -/
def aspeed_gpio_read (s : AspeedGPIOState) (offset size : Nat) : Nat :=
  if size ≠ 4 then 0
  else
    match aspeed_offset_to_idx offset, (gpios offset).get with
    | none, _ => 0
    | _, none => 0
    | some _, some g => applyGetter g (s.sets (gpios offset).set_idx)

/-- `aspeed_gpio_write`: translate the offset, drop the write when the
translation fails or the entry has no setter, otherwise mask the data to
the bank's legal bits and apply the setter.  As in the source, the access
`size` is never checked here and `gpios` is indexed by the raw byte
`offset`. -/
def aspeed_gpio_write (s : AspeedGPIOState) (offset data size : Nat) :
    AspeedGPIOState × List (Nat × Nat) :=
  let props := s.ctrl.props.getD (gpios offset).set_idx ⟨0, 0, []⟩
  match aspeed_offset_to_idx offset, (gpios offset).set with
  | none, _ => (s, [])
  | _, none => (s, [])
  | some _, some w =>
    let mask := props.input ||| props.output
    let r := applySetter w (s.sets (gpios offset).set_idx) props (data &&& mask)
    ({ s with sets := fun i => if i = (gpios offset).set_idx then r.1 else s.sets i },
     r.2)

/-- Modelled from the spec: the memory-mapped dispatch contract.  The
`aspeed_gpio_ops` descriptor in the source declares
`.valid.min_access_size = 4` and `.valid.max_access_size = 4`; QEMU's
memory core (not part of src/) rejects and logs accesses of any other size
before the device callbacks run, so a rejected read returns 0 and a
rejected write is dropped. -/
def aspeed_gpio_ops_valid_access (size : Nat) : Bool :=
  decide (4 ≤ size) && decide (size ≤ 4)

/-- A bus-level read: the memory core's size validation composed with
`aspeed_gpio_read`. -/
def aspeed_gpio_mmio_read (s : AspeedGPIOState) (offset size : Nat) : Nat :=
  if aspeed_gpio_ops_valid_access size then aspeed_gpio_read s offset size else 0

/-- A bus-level write: the memory core's size validation composed with
`aspeed_gpio_write`. -/
def aspeed_gpio_mmio_write (s : AspeedGPIOState) (offset data size : Nat) :
    AspeedGPIOState × List (Nat × Nat) :=
  if aspeed_gpio_ops_valid_access size then aspeed_gpio_write s offset data size
  else (s, [])

/-- `aspeed_gpio_reset`: zero every bank (`memset(s->sets, 0, ...)`). -/
def aspeed_gpio_reset (s : AspeedGPIOState) : AspeedGPIOState :=
  { s with sets := fun _ => {} }

/-- `aspeed_adjust_pin`: pins at or past a nonzero gap are shifted up by 4. -/
def aspeed_adjust_pin (ctrl : AspeedGPIOController) (pin : Nat) : Nat :=
  if ctrl.gap ≠ 0 ∧ ctrl.gap ≤ pin then pin + 4 else pin

/-- `aspeed_get_set_idx_from_pin`: the bank index of a pin. -/
def aspeed_get_set_idx_from_pin (ctrl : AspeedGPIOController) (pin : Nat) : Nat :=
  aspeed_adjust_pin ctrl pin >>> 5

/-- The (set index, bit-in-set) pair computed for each pin at property
instantiation in `aspeed_gpio_init`: `set_idx = adjusted >> 5` and
`pin_idx = adjusted - set_idx * 32`. -/
def aspeed_bank_and_bit (ctrl : AspeedGPIOController) (pin : Nat) : Nat × Nat :=
  let set_idx := aspeed_get_set_idx_from_pin ctrl pin
  (set_idx, aspeed_adjust_pin ctrl pin - set_idx * 32)

/-- `aspeed_gpio_get_pin_level`: `!!(sets[adjusted >> 5].data_value & (1 << pin))`.
The mask uses the raw `pin`, truncated to the 32-bit value of `1 << pin`
(a C shift past 31 bits is undefined; the truncation makes it 0). -/
def aspeed_gpio_get_pin_level (s : AspeedGPIOState) (pin : Nat) : Bool :=
  let mask := (1 <<< pin) % 2 ^ 32
  let set_idx := aspeed_get_set_idx_from_pin s.ctrl pin
  decide ((s.sets set_idx).data_value &&& mask ≠ 0)

/-- `aspeed_gpio_set_pin_level`: set `data_read |= mask` or
`data_read &= !mask` (the source's logical negation, not `~mask`), then run
the evaluation engine on that bank. -/
def aspeed_gpio_set_pin_level (s : AspeedGPIOState) (pin : Nat) (level : Bool) :
    AspeedGPIOState × List (Nat × Nat) :=
  let mask := (1 <<< pin) % 2 ^ 32
  let set_idx := aspeed_get_set_idx_from_pin s.ctrl pin
  let regs := s.sets set_idx
  let regs := if level then { regs with data_read := regs.data_read ||| mask }
              else { regs with data_read := regs.data_read &&& c_lognot mask }
  let r := aspeed_gpio_update regs
  ({ s with sets := fun i => if i = set_idx then r.1 else s.sets i }, r.2)

/-- The ast2400 descriptor's per-set properties. -/
def ast2400_set_props : List GPIOSetProperties := [
  ⟨0xffffffff, 0xffffffff, ["A", "B", "C", "D"]⟩,
  ⟨0xffffffff, 0xffffffff, ["E", "F", "G", "H"]⟩,
  ⟨0xffffffff, 0xffffffff, ["I", "J", "K", "L"]⟩,
  ⟨0xffffffff, 0xffffffff, ["M", "N", "O", "P"]⟩,
  ⟨0xffffffff, 0xffffffff, ["Q", "R", "S", "T"]⟩,
  ⟨0xffffffff, 0x0000ffff, ["U", "V", "W", "X"]⟩,
  ⟨0x0000000f, 0x0fffff0f, ["Y", "Z", "AA", "AB"]⟩]

/-- The ast2500 descriptor's per-set properties. -/
def ast2500_set_props : List GPIOSetProperties := [
  ⟨0xffffffff, 0xffffffff, ["A", "B", "C", "D"]⟩,
  ⟨0xffffffff, 0xffffffff, ["E", "F", "G", "H"]⟩,
  ⟨0xffffffff, 0xffffffff, ["I", "J", "K", "L"]⟩,
  ⟨0xffffffff, 0xffffffff, ["M", "N", "O", "P"]⟩,
  ⟨0xffffffff, 0xffffffff, ["Q", "R", "S", "T"]⟩,
  ⟨0xffffffff, 0x0000ffff, ["U", "V", "W", "X"]⟩,
  ⟨0xffffff0f, 0x0fffff0f, ["Y", "Z", "AA", "AB"]⟩,
  ⟨0x000000ff, 0x000000ff, ["AC"]⟩]

/-- The ast2600 descriptor's per-set properties (sets 7 and 8 are the 1.8V
domain). -/
def ast2600_set_props : List GPIOSetProperties := [
  ⟨0xffffffff, 0xffffffff, ["A", "B", "C", "D"]⟩,
  ⟨0xffffffff, 0xffffffff, ["E", "F", "G", "H"]⟩,
  ⟨0xffffffff, 0xffffffff, ["I", "J", "K", "L"]⟩,
  ⟨0xffffffff, 0xffffffff, ["M", "N", "O", "P"]⟩,
  ⟨0xffffffff, 0xffffffff, ["Q", "R", "S", "T"]⟩,
  ⟨0xffffffff, 0x0000ffff, ["U", "V", "W", "X"]⟩,
  ⟨0xffff0000, 0x0fff0000, ["Y", "Z", "", ""]⟩,
  ⟨0x000000ff, 0x000000ff, ["A", "B", "C", "D"]⟩,
  ⟨0x000000ff, 0x000000ff, ["E"]⟩]

/-- The three chip-generation controller descriptors, in source order. -/
def controllers : List AspeedGPIOController := [
  { name := "aspeed.gpio-ast2600", props := ast2600_set_props,
    nr_gpio_pins := 208, nr_gpio_sets := 7 },
  { name := "aspeed.gpio-ast2500", props := ast2500_set_props,
    nr_gpio_pins := 228, nr_gpio_sets := 8, gap := 220 },
  { name := "aspeed.gpio-ast2400", props := ast2400_set_props,
    nr_gpio_pins := 216, nr_gpio_sets := 7, gap := 196 }]

/-- The externally visible state-mutating operations of the core: bus writes
(bus reads leave the state unchanged by construction) and board-level pin
sets. -/
inductive GPIOOp where
  | mmio_write (offset data size : Nat)
  | set_pin (pin : Nat) (level : Bool)

/-- Apply one operation to the controller state. -/
def aspeed_apply_op (s : AspeedGPIOState) (op : GPIOOp) : AspeedGPIOState :=
  match op with
  | .mmio_write offset data size => (aspeed_gpio_mmio_write s offset data size).1
  | .set_pin pin level => (aspeed_gpio_set_pin_level s pin level).1

/-- Invariant of C10: only the command-source bits 0, 8, 16, 24 can be set
in `cmd_source_0`/`cmd_source_1`. -/
def cmd_source_inv (regs : GPIORegs) : Prop :=
  regs.cmd_source_0 &&& compl32 ASPEED_CMD_SRC_MASK = 0 ∧
  regs.cmd_source_1 &&& compl32 ASPEED_CMD_SRC_MASK = 0

/-- Descriptor properties of a fully input/output-capable bank (the ABCD
set of every generation). -/
def props_abcd : GPIOSetProperties := ⟨0xffffffff, 0xffffffff, ["A", "B", "C", "D"]⟩

/-- The ast2600 controller descriptor (first entry of `controllers`). -/
def ast2600_ctrl : AspeedGPIOController :=
  controllers.getD 0 ⟨"", [], 0, 0, 0⟩

/-- Example bank for the C1 witness: bit 3 is an output, unmasked,
rising-edge sensitive, with a pending 0-to-1 transition in `data_read`. -/
def c1_example_regs : GPIORegs := { data_read := 8, direction := 8, int_sens_0 := 8 }

/-- Example bank for the C3 counterexample: group 0 is owned by LPC
(`cmd_source_0` bit 0 set) while `data_read` and `data_value` disagree on
an output, unmasked group-0 byte. -/
def c3_example_regs : GPIORegs :=
  { data_read := 0xff, direction := 0xff, cmd_source_0 := 1 }

/-- Example bank for the C5 counterexample: bit 3 is high, level-high
sensitive (trigger 3), already committed (`data_value = data_read`), with
`int_status` clear. -/
def c5_example_regs : GPIORegs :=
  { data_value := 8, data_read := 8, direction := 8, int_sens_0 := 8, int_sens_1 := 8 }

/-- Example bank for the C5 witness: same configuration but with a pending
0-to-1 transition. -/
def c5_rise_regs : GPIORegs :=
  { data_read := 8, direction := 8, int_sens_0 := 8, int_sens_1 := 8 }

/-- Example state for the C2 failing input: bank 0 holds a recognizable
`data_value`. -/
def c2_example_state : AspeedGPIOState := ⟨ast2600_ctrl, fun _ => { data_value := 0x55 }⟩

/-- Example state for the C6 failing input: bank 0 holds `data_read = 0xff`. -/
def c6_example_state : AspeedGPIOState := ⟨ast2600_ctrl, fun _ => { data_read := 0xff }⟩

/-- Example state for the C7 witness. -/
def c7_example_state : AspeedGPIOState := ⟨ast2600_ctrl, fun _ => { direction := 1 }⟩

/-- Example state for the C8 failing input: bank 0 holds a recognizable
`data_read`. -/
def c8_example_state : AspeedGPIOState :=
  ⟨ast2600_ctrl, fun _ => { data_read := 0x12345678 }⟩


/-- `extract32 x b` is the indicator of `x.testBit b`. -/
theorem extract32_eq (x b : Nat) : extract32 x b = if x.testBit b then 1 else 0 := by
  simp only [extract32, Nat.and_one_is_mod, Nat.shiftRight_eq_div_pow,
    Nat.testBit_to_div_mod]
  rcases Nat.mod_two_eq_zero_or_one (x / 2 ^ b) with h | h <;> simp [h]

/-- Masking with a single-bit mask vanishes exactly when that bit is clear. -/
theorem and_shift_eq_zero_iff (x b : Nat) :
    x &&& 1 <<< b = 0 ↔ x.testBit b = false := by
  rw [Nat.one_shiftLeft, Nat.and_two_pow]
  rcases hx : x.testBit b <;> simp [hx, Nat.pow_eq_zero]

/-- Single-bit masking, value form. -/
theorem and_shift_eq (x b : Nat) :
    x &&& 1 <<< b = if x.testBit b then 1 <<< b else 0 := by
  rw [Nat.one_shiftLeft, Nat.and_two_pow]
  rcases hx : x.testBit b <;> simp [hx]

/-- Bits below 32 other than `i` survive `&&& compl32 (1 <<< i)`. -/
theorem compl32_one_testBit {i b : Nat} (hb : b < 32) (hne : i ≠ b) :
    (compl32 (1 <<< i)).testBit b = true := by
  simp only [compl32, UINT32_MAX, Nat.one_shiftLeft, Nat.testBit_xor,
    Nat.testBit_two_pow_sub_one, Nat.testBit_two_pow]
  simp [hb, hne]

/-- Structural characterization of one update-loop step: it either leaves the
state alone, or commits the new bit into `data_value` (set or clear) and
then either leaves `int_status` and the events alone or sets status bit
`b` and appends the single event `(b, 1)`. -/
theorem step_characterize (o n d m : Nat) (st : GPIORegs × List (Nat × Nat)) (b : Nat) :
    aspeed_gpio_update_step o n d m st b = st ∨
    ∃ regs1 : GPIORegs,
      (regs1 = { st.1 with data_value := st.1.data_value ||| 1 <<< b } ∨
       regs1 = { st.1 with data_value := st.1.data_value &&& compl32 (1 <<< b) }) ∧
      (aspeed_gpio_update_step o n d m st b = (regs1, st.2) ∨
       aspeed_gpio_update_step o n d m st b =
         ({ regs1 with int_status := deposit32_one regs1.int_status b },
          st.2 ++ [(b, 1)])) := by
  simp only [aspeed_gpio_update_step, aspeed_evaluate_irq]
  split_ifs with h1 h2 h3 h4 h5
  all_goals simp_all

/-- `1 <<< b` has exactly bit `b` set. -/
theorem one_shift_testBit (b i : Nat) : ((1 : Nat) <<< b).testBit i = decide (b = i) := by
  rw [Nat.one_shiftLeft]; exact Nat.testBit_two_pow

/-- A step at bit `b` never changes any register field other than
`data_value` and `int_status`. -/
theorem step_frame (o n d m : Nat) (st : GPIORegs × List (Nat × Nat)) (b : Nat) :
    (aspeed_gpio_update_step o n d m st b).1.data_read = st.1.data_read ∧
    (aspeed_gpio_update_step o n d m st b).1.direction = st.1.direction ∧
    (aspeed_gpio_update_step o n d m st b).1.int_enable = st.1.int_enable ∧
    (aspeed_gpio_update_step o n d m st b).1.int_sens_0 = st.1.int_sens_0 ∧
    (aspeed_gpio_update_step o n d m st b).1.int_sens_1 = st.1.int_sens_1 ∧
    (aspeed_gpio_update_step o n d m st b).1.int_sens_2 = st.1.int_sens_2 ∧
    (aspeed_gpio_update_step o n d m st b).1.reset_tol = st.1.reset_tol ∧
    (aspeed_gpio_update_step o n d m st b).1.cmd_source_0 = st.1.cmd_source_0 ∧
    (aspeed_gpio_update_step o n d m st b).1.cmd_source_1 = st.1.cmd_source_1 ∧
    (aspeed_gpio_update_step o n d m st b).1.debounce_1 = st.1.debounce_1 ∧
    (aspeed_gpio_update_step o n d m st b).1.debounce_2 = st.1.debounce_2 ∧
    (aspeed_gpio_update_step o n d m st b).1.input_mask = st.1.input_mask := by
  rcases step_characterize o n d m st b with h | ⟨regs1, hregs | hregs, h | h⟩ <;>
    simp_all

/-- A step never clears a set `int_status` bit. -/
theorem step_status_mono (o n d m : Nat) (st : GPIORegs × List (Nat × Nat)) (b i : Nat)
    (h : st.1.int_status.testBit i = true) :
    (aspeed_gpio_update_step o n d m st b).1.int_status.testBit i = true := by
  rcases step_characterize o n d m st b with hc | ⟨regs1, hregs | hregs, hc | hc⟩ <;>
    simp_all [deposit32_one, Nat.testBit_or]

/-- A step at a bit other than `i` changes neither `int_status` bit `i` nor
the events at `i`. -/
theorem step_other_bit (o n d m : Nat) (st : GPIORegs × List (Nat × Nat)) (b i : Nat)
    (hne : b ≠ i) :
    (aspeed_gpio_update_step o n d m st b).1.int_status.testBit i =
      st.1.int_status.testBit i ∧
    ((aspeed_gpio_update_step o n d m st b).2.filter (fun e => e.1 == i)) =
      st.2.filter (fun e => e.1 == i) := by
  rcases step_characterize o n d m st b with hc | ⟨regs1, hregs | hregs, hc | hc⟩ <;>
    simp_all [deposit32_one, Nat.testBit_or,
      Nat.testBit_one_eq_true_iff_self_eq_zero] <;>
    (intros; omega)

/-- A step at bit `b` preserves `data_value` bit `i` when `i ≠ b`, `i < 32`. -/
theorem step_dv_other_bit (o n d m : Nat) (st : GPIORegs × List (Nat × Nat)) (b i : Nat)
    (hi : i < 32) (hne : b ≠ i) :
    (aspeed_gpio_update_step o n d m st b).1.data_value.testBit i =
      st.1.data_value.testBit i := by
  rcases step_characterize o n d m st b with hc | ⟨regs1, hregs | hregs, hc | hc⟩ <;>
    simp_all [Nat.testBit_or, Nat.testBit_and, compl32_one_testBit hi hne,
      Nat.testBit_one_eq_true_iff_self_eq_zero] <;>
    (intros; omega)

/-- A step at a bit whose direction is input or which is masked is a no-op. -/
theorem step_skip_of_dir_or_mask (o n d m : Nat) (st : GPIORegs × List (Nat × Nat))
    (b : Nat) (h : d.testBit b = false ∨ m.testBit b = true) :
    aspeed_gpio_update_step o n d m st b = st := by
  simp only [aspeed_gpio_update_step]
  rcases h with h | h
  · have hd : d &&& 1 <<< b = 0 := (and_shift_eq_zero_iff d b).mpr h
    split_ifs <;> simp_all
  · have hm : ¬(m &&& 1 <<< b = 0) := by
      rw [and_shift_eq_zero_iff]; simp [h]
    split_ifs <;> simp_all

/-- A step at a bit that did not change is a no-op. -/
theorem step_skip_of_no_diff (o n d m : Nat) (st : GPIORegs × List (Nat × Nat))
    (b : Nat) (h : o.testBit b = n.testBit b) :
    aspeed_gpio_update_step o n d m st b = st := by
  have hdiff : (o ^^^ n) &&& 1 <<< b = 0 := by
    rw [and_shift_eq_zero_iff, Nat.testBit_xor, h]
    simp
  simp only [aspeed_gpio_update_step]
  rw [if_pos hdiff]

/-- `compl32 (1 <<< b)` clears exactly bit `b` (for `b < 32`). -/
theorem compl32_one_testBit_self {b : Nat} (hb : b < 32) :
    (compl32 (1 <<< b)).testBit b = false := by
  simp only [compl32, UINT32_MAX, Nat.one_shiftLeft, Nat.testBit_xor,
    Nat.testBit_two_pow_sub_one, Nat.testBit_two_pow]
  simp [hb]

/-- `1 <<< b` is never zero. -/
theorem one_shift_ne_zero (b : Nat) : (1 : Nat) <<< b ≠ 0 := by
  rw [Nat.one_shiftLeft]
  exact (Nat.two_pow_pos b).ne'

/-- Folding update steps preserves every register field other than
`data_value` and `int_status`. -/
theorem foldl_frame (o n d m : Nat) (l : List Nat) (st : GPIORegs × List (Nat × Nat)) :
    (l.foldl (aspeed_gpio_update_step o n d m) st).1.data_read = st.1.data_read ∧
    (l.foldl (aspeed_gpio_update_step o n d m) st).1.direction = st.1.direction ∧
    (l.foldl (aspeed_gpio_update_step o n d m) st).1.int_enable = st.1.int_enable ∧
    (l.foldl (aspeed_gpio_update_step o n d m) st).1.int_sens_0 = st.1.int_sens_0 ∧
    (l.foldl (aspeed_gpio_update_step o n d m) st).1.int_sens_1 = st.1.int_sens_1 ∧
    (l.foldl (aspeed_gpio_update_step o n d m) st).1.int_sens_2 = st.1.int_sens_2 ∧
    (l.foldl (aspeed_gpio_update_step o n d m) st).1.reset_tol = st.1.reset_tol ∧
    (l.foldl (aspeed_gpio_update_step o n d m) st).1.cmd_source_0 = st.1.cmd_source_0 ∧
    (l.foldl (aspeed_gpio_update_step o n d m) st).1.cmd_source_1 = st.1.cmd_source_1 ∧
    (l.foldl (aspeed_gpio_update_step o n d m) st).1.debounce_1 = st.1.debounce_1 ∧
    (l.foldl (aspeed_gpio_update_step o n d m) st).1.debounce_2 = st.1.debounce_2 ∧
    (l.foldl (aspeed_gpio_update_step o n d m) st).1.input_mask = st.1.input_mask := by
  induction l generalizing st with
  | nil => exact ⟨rfl, rfl, rfl, rfl, rfl, rfl, rfl, rfl, rfl, rfl, rfl, rfl⟩
  | cons i t ih =>
    have hs := step_frame o n d m st i
    have ht := ih (aspeed_gpio_update_step o n d m st i)
    simp only [List.foldl_cons]
    simp_all

/-- Folding update steps never clears a set `int_status` bit. -/
theorem foldl_status_mono (o n d m : Nat) (l : List Nat)
    (st : GPIORegs × List (Nat × Nat)) (b : Nat)
    (h : st.1.int_status.testBit b = true) :
    (l.foldl (aspeed_gpio_update_step o n d m) st).1.int_status.testBit b = true := by
  induction l generalizing st with
  | nil => exact h
  | cons i t ih =>
    simp only [List.foldl_cons]
    exact ih _ (step_status_mono o n d m st i b h)

/-- Folding update steps over bits other than `b` changes neither
`int_status` bit `b`, nor `data_value` bit `b`, nor the events at `b`. -/
theorem foldl_avoid (o n d m : Nat) (l : List Nat)
    (st : GPIORegs × List (Nat × Nat)) (b : Nat) (hb : b < 32)
    (hl : ∀ i ∈ l, i ≠ b) :
    (l.foldl (aspeed_gpio_update_step o n d m) st).1.int_status.testBit b =
      st.1.int_status.testBit b ∧
    (l.foldl (aspeed_gpio_update_step o n d m) st).1.data_value.testBit b =
      st.1.data_value.testBit b ∧
    ((l.foldl (aspeed_gpio_update_step o n d m) st).2.filter (fun e => e.1 == b)) =
      st.2.filter (fun e => e.1 == b) := by
  induction l generalizing st with
  | nil => exact ⟨rfl, rfl, rfl⟩
  | cons i t ih =>
    have hi : i ≠ b := hl i (List.mem_cons_self i t)
    have h1 := step_other_bit o n d m st i b hi
    have h2 := step_dv_other_bit o n d m st i b hb hi
    have h3 := ih (aspeed_gpio_update_step o n d m st i)
      (fun j hj => hl j (List.mem_cons_of_mem _ hj))
    simp only [List.foldl_cons]
    exact ⟨h3.1.trans h1.1, h3.2.1.trans h2, h3.2.2.trans h1.2⟩

/-- When bit `b` is an input or masked, folding update steps preserves
`data_value` bit `b`. -/
theorem foldl_dv_preserved (o n d m : Nat) (l : List Nat)
    (st : GPIORegs × List (Nat × Nat)) (b : Nat) (hb : b < 32)
    (h : d.testBit b = false ∨ m.testBit b = true) :
    (l.foldl (aspeed_gpio_update_step o n d m) st).1.data_value.testBit b =
      st.1.data_value.testBit b := by
  induction l generalizing st with
  | nil => rfl
  | cons i t ih =>
    simp only [List.foldl_cons]
    by_cases hib : i = b
    · subst hib
      rw [step_skip_of_dir_or_mask o n d m st i h]
      exact ih st
    · exact (ih _).trans (step_dv_other_bit o n d m st i b hb hib)

/-- When bit `b` did not change between `o` and `n`, folding update steps
changes neither `int_status` bit `b` nor the events at `b`. -/
theorem foldl_preserve_unchanged_bit (o n d m : Nat) (l : List Nat)
    (st : GPIORegs × List (Nat × Nat)) (b : Nat)
    (h : o.testBit b = n.testBit b) :
    (l.foldl (aspeed_gpio_update_step o n d m) st).1.int_status.testBit b =
      st.1.int_status.testBit b ∧
    ((l.foldl (aspeed_gpio_update_step o n d m) st).2.filter (fun e => e.1 == b)) =
      st.2.filter (fun e => e.1 == b) := by
  induction l generalizing st with
  | nil => exact ⟨rfl, rfl⟩
  | cons i t ih =>
    simp only [List.foldl_cons]
    by_cases hib : i = b
    · subst hib
      rw [step_skip_of_no_diff o n d m st i h]
      exact ih st
    · have h1 := step_other_bit o n d m st i b hib
      have h3 := ih (aspeed_gpio_update_step o n d m st i)
      exact ⟨h3.1.trans h1.1, h3.2.trans h1.2⟩

/-- The active step on a 0-to-1 transition of bit `b` whose sensitivity code
has `int_sens_0` set and `int_sens_2` clear (trigger 1 = rising-edge, or 3 =
level-high, depending on `int_sens_1`): the bit is committed to
`data_value`, `int_status` bit `b` is set, and one interrupt event `(b, 1)`
is emitted. -/
theorem step_fire_on_rise (o n d m : Nat) (st : GPIORegs × List (Nat × Nat)) (b : Nat)
    (ho : o.testBit b = false) (hn : n.testBit b = true)
    (hd : d.testBit b = true) (hm : m.testBit b = false)
    (hs0 : st.1.int_sens_0.testBit b = true)
    (hs2 : st.1.int_sens_2.testBit b = false) :
    aspeed_gpio_update_step o n d m st b =
      ({ st.1 with data_value := st.1.data_value ||| 1 <<< b,
                   int_status := deposit32_one st.1.int_status b },
       st.2 ++ [(b, 1)]) := by
  have h1 : ¬((o ^^^ n) &&& 1 <<< b = 0) := by
    rw [and_shift_eq_zero_iff, Nat.testBit_xor, ho, hn]; simp
  have h2 : ¬(d &&& 1 <<< b = 0) := by
    rw [and_shift_eq_zero_iff, hd]; simp
  have h3 : ¬(m &&& 1 <<< b ≠ 0) := by
    simp [and_shift_eq_zero_iff, hm]
  have h4 : n &&& 1 <<< b ≠ 0 := by
    simp [and_shift_eq_zero_iff, hn]
  have hprev : o &&& 1 <<< b = 0 := (and_shift_eq_zero_iff o b).mpr ho
  have hcurr : (st.1.data_value ||| 1 <<< b).testBit b = true := by
    simp [Nat.testBit_or, one_shift_testBit]
  simp only [aspeed_gpio_update_step, if_neg h1, if_neg h2, if_neg h3, if_pos h4]
  by_cases hs1v : st.1.int_sens_1.testBit b = true <;>
    simp [aspeed_evaluate_irq, extract32_eq, hs0, hs2, hs1v, hprev, hcurr,
      ASPEED_FALLING_EDGE, ASPEED_RISING_EDGE, ASPEED_LEVEL_LOW,
      ASPEED_LEVEL_HIGH, ASPEED_DUAL_EDGE]

/-- The active step on a 1-to-0 transition of bit `b` under trigger code 1
(rising-edge): the bit is committed to `data_value` but no interrupt fires
and `int_status` is untouched. -/
theorem step_no_fire_on_fall_rising (o n d m : Nat) (st : GPIORegs × List (Nat × Nat))
    (b : Nat) (hb : b < 32)
    (ho : o.testBit b = true) (hn : n.testBit b = false)
    (hd : d.testBit b = true) (hm : m.testBit b = false)
    (hs0 : st.1.int_sens_0.testBit b = true)
    (hs1 : st.1.int_sens_1.testBit b = false)
    (hs2 : st.1.int_sens_2.testBit b = false) :
    aspeed_gpio_update_step o n d m st b =
      ({ st.1 with data_value := st.1.data_value &&& compl32 (1 <<< b) }, st.2) := by
  have h1 : ¬((o ^^^ n) &&& 1 <<< b = 0) := by
    rw [and_shift_eq_zero_iff, Nat.testBit_xor, ho, hn]; simp
  have h2 : ¬(d &&& 1 <<< b = 0) := by
    rw [and_shift_eq_zero_iff, hd]; simp
  have h3 : ¬(m &&& 1 <<< b ≠ 0) := by
    simp [and_shift_eq_zero_iff, hm]
  have h4 : ¬(n &&& 1 <<< b ≠ 0) := by
    simp [and_shift_eq_zero_iff, hn]
  have hprev : o &&& 1 <<< b = 1 <<< b := by
    rw [and_shift_eq, ho]; simp
  have hcurr : (st.1.data_value &&& compl32 (1 <<< b)).testBit b = false := by
    simp [Nat.testBit_and, compl32_one_testBit_self hb]
  simp only [aspeed_gpio_update_step, if_neg h1, if_neg h2, if_neg h3, if_neg h4]
  simp [aspeed_evaluate_irq, extract32_eq, hs0, hs1, hs2, hprev, hcurr,
    one_shift_ne_zero,
    ASPEED_FALLING_EDGE, ASPEED_RISING_EDGE, ASPEED_LEVEL_LOW,
    ASPEED_LEVEL_HIGH, ASPEED_DUAL_EDGE]

/-- Splitting the 32-bit loop range around a chosen bit `b`. -/
theorem range32_split (b : Nat) (hb : b < 32) :
    List.range 32 = List.range' 0 b ++ b :: List.range' (b + 1) (31 - b) := by
  rw [List.range_eq_range']
  have h32 : 32 - b + b = 32 := by omega
  rw [← h32, ← List.range'_append_1 0 b (32 - b)]
  congr 1
  have h2 : 32 - b = (31 - b) + 1 := by omega
  rw [h2, List.range'_succ]
  simp

/-- `aspeed_gpio_update` changes no register field other than `data_value`
and `int_status`. -/
theorem update_frame (regs : GPIORegs) :
    (aspeed_gpio_update regs).1.data_read = regs.data_read ∧
    (aspeed_gpio_update regs).1.direction = regs.direction ∧
    (aspeed_gpio_update regs).1.int_enable = regs.int_enable ∧
    (aspeed_gpio_update regs).1.int_sens_0 = regs.int_sens_0 ∧
    (aspeed_gpio_update regs).1.int_sens_1 = regs.int_sens_1 ∧
    (aspeed_gpio_update regs).1.int_sens_2 = regs.int_sens_2 ∧
    (aspeed_gpio_update regs).1.reset_tol = regs.reset_tol ∧
    (aspeed_gpio_update regs).1.cmd_source_0 = regs.cmd_source_0 ∧
    (aspeed_gpio_update regs).1.cmd_source_1 = regs.cmd_source_1 ∧
    (aspeed_gpio_update regs).1.debounce_1 = regs.debounce_1 ∧
    (aspeed_gpio_update regs).1.debounce_2 = regs.debounce_2 ∧
    (aspeed_gpio_update regs).1.input_mask = regs.input_mask := by
  unfold aspeed_gpio_update
  split_ifs with h1 h2
  · exact ⟨rfl, rfl, rfl, rfl, rfl, rfl, rfl, rfl, rfl, rfl, rfl, rfl⟩
  · exact ⟨rfl, rfl, rfl, rfl, rfl, rfl, rfl, rfl, rfl, rfl, rfl, rfl⟩
  · exact foldl_frame regs.data_value regs.data_read regs.direction
      regs.input_mask (List.range ASPEED_GPIOS_PER_REG) (regs, [])

/-- The evaluation engine never clears a set `int_status` bit. -/
theorem update_status_mono (regs : GPIORegs) (b : Nat)
    (h : regs.int_status.testBit b = true) :
    (aspeed_gpio_update regs).1.int_status.testBit b = true := by
  unfold aspeed_gpio_update
  split_ifs with h1 h2
  · exact h
  · exact h
  · exact foldl_status_mono regs.data_value regs.data_read regs.direction
      regs.input_mask (List.range ASPEED_GPIOS_PER_REG) (regs, []) b h

/-- The evaluation engine leaves `data_value` bit `b` alone when `b` is not
an output or is masked. -/
theorem update_dv_preserved (regs : GPIORegs) (b : Nat) (hb : b < 32)
    (h : regs.direction.testBit b = false ∨ regs.input_mask.testBit b = true) :
    (aspeed_gpio_update regs).1.data_value.testBit b = regs.data_value.testBit b := by
  unfold aspeed_gpio_update
  split_ifs with h1 h2
  · rfl
  · rfl
  · exact foldl_dv_preserved regs.data_value regs.data_read regs.direction
      regs.input_mask (List.range ASPEED_GPIOS_PER_REG) (regs, []) b hb h

/-- When bit `b` is unchanged between `data_value` and `data_read`, the
evaluation engine neither touches `int_status` bit `b` nor emits an event
at `b`. -/
theorem update_unchanged_bit (regs : GPIORegs) (b : Nat)
    (h : regs.data_value.testBit b = regs.data_read.testBit b) :
    (aspeed_gpio_update regs).1.int_status.testBit b = regs.int_status.testBit b ∧
    ((aspeed_gpio_update regs).2.filter (fun e => e.1 == b)) = [] := by
  unfold aspeed_gpio_update
  split_ifs with h1 h2
  · exact ⟨rfl, rfl⟩
  · exact ⟨rfl, rfl⟩
  · have := foldl_preserve_unchanged_bit regs.data_value regs.data_read
      regs.direction regs.input_mask (List.range ASPEED_GPIOS_PER_REG) (regs, []) b h
    exact ⟨this.1, this.2⟩

/-- The evaluation engine on a 0-to-1 transition of an output, unmasked bit
`b` whose `int_sens_0` bit is set and `int_sens_2` bit is clear (trigger 1,
rising-edge, or trigger 3, level-high): `int_status` bit `b` is set and
exactly one interrupt event `(b, 1)` is emitted. -/
theorem update_rise_fires (regs : GPIORegs) (b : Nat) (hb : b < 32)
    (hs0 : regs.int_sens_0.testBit b = true)
    (hs2 : regs.int_sens_2.testBit b = false)
    (hd : regs.direction.testBit b = true)
    (hm : regs.input_mask.testBit b = false)
    (ho : regs.data_value.testBit b = false)
    (hn : regs.data_read.testBit b = true) :
    (aspeed_gpio_update regs).1.int_status.testBit b = true ∧
    ((aspeed_gpio_update regs).2.filter (fun e => e.1 == b)) = [(b, 1)] := by
  have hne0 : ¬(regs.data_value ^^^ regs.data_read = 0) := by
    intro h
    have h' := congrArg (fun x => x.testBit b) h
    simp [Nat.testBit_xor, ho, hn] at h'
  have hdir : ¬(regs.direction = 0) := by
    intro h
    rw [h] at hd
    simp at hd
  have hl1 : ∀ i ∈ List.range' 0 b, i ≠ b := by
    intro i hi
    have := List.mem_range'_1.mp hi
    omega
  have hl2 : ∀ i ∈ List.range' (b + 1) (31 - b), i ≠ b := by
    intro i hi
    have := List.mem_range'_1.mp hi
    omega
  unfold aspeed_gpio_update
  rw [if_neg hne0, if_neg hdir]
  have h32 : ASPEED_GPIOS_PER_REG = 32 := rfl
  rw [h32, range32_split b hb, List.foldl_append, List.foldl_cons]
  have hA := foldl_avoid regs.data_value regs.data_read regs.direction
    regs.input_mask (List.range' 0 b) (regs, []) b hb hl1
  have hF := foldl_frame regs.data_value regs.data_read regs.direction
    regs.input_mask (List.range' 0 b) (regs, [])
  have hstep := step_fire_on_rise regs.data_value regs.data_read regs.direction
    regs.input_mask
    ((List.range' 0 b).foldl
      (aspeed_gpio_update_step regs.data_value regs.data_read regs.direction
        regs.input_mask) (regs, [])) b ho hn hd hm
    (by rw [hF.2.2.2.1]; exact hs0) (by rw [hF.2.2.2.2.2.1]; exact hs2)
  rw [hstep]
  refine ⟨(foldl_avoid regs.data_value regs.data_read regs.direction
      regs.input_mask (List.range' (b + 1) (31 - b)) _ b hb hl2).1.trans ?_,
    (foldl_avoid regs.data_value regs.data_read regs.direction
      regs.input_mask (List.range' (b + 1) (31 - b)) _ b hb hl2).2.2.trans ?_⟩
  · simp [deposit32_one, Nat.testBit_or, one_shift_testBit]
  · rw [List.filter_append, hA.2.2]
    simp

/-- The evaluation engine on a 1-to-0 transition of an output, unmasked bit
`b` under trigger code 1 (rising-edge): `int_status` bit `b` is unchanged
and no interrupt event at `b` is emitted. -/
theorem update_fall_no_fire (regs : GPIORegs) (b : Nat) (hb : b < 32)
    (hs0 : regs.int_sens_0.testBit b = true)
    (hs1 : regs.int_sens_1.testBit b = false)
    (hs2 : regs.int_sens_2.testBit b = false)
    (hd : regs.direction.testBit b = true)
    (hm : regs.input_mask.testBit b = false)
    (ho : regs.data_value.testBit b = true)
    (hn : regs.data_read.testBit b = false) :
    (aspeed_gpio_update regs).1.int_status.testBit b = regs.int_status.testBit b ∧
    ((aspeed_gpio_update regs).2.filter (fun e => e.1 == b)) = [] := by
  have hne0 : ¬(regs.data_value ^^^ regs.data_read = 0) := by
    intro h
    have h' := congrArg (fun x => x.testBit b) h
    simp [Nat.testBit_xor, ho, hn] at h'
  have hdir : ¬(regs.direction = 0) := by
    intro h
    rw [h] at hd
    simp at hd
  have hl1 : ∀ i ∈ List.range' 0 b, i ≠ b := by
    intro i hi
    have := List.mem_range'_1.mp hi
    omega
  have hl2 : ∀ i ∈ List.range' (b + 1) (31 - b), i ≠ b := by
    intro i hi
    have := List.mem_range'_1.mp hi
    omega
  unfold aspeed_gpio_update
  rw [if_neg hne0, if_neg hdir]
  have h32 : ASPEED_GPIOS_PER_REG = 32 := rfl
  rw [h32, range32_split b hb, List.foldl_append, List.foldl_cons]
  have hA := foldl_avoid regs.data_value regs.data_read regs.direction
    regs.input_mask (List.range' 0 b) (regs, []) b hb hl1
  have hF := foldl_frame regs.data_value regs.data_read regs.direction
    regs.input_mask (List.range' 0 b) (regs, [])
  have hstep := step_no_fire_on_fall_rising regs.data_value regs.data_read
    regs.direction regs.input_mask
    ((List.range' 0 b).foldl
      (aspeed_gpio_update_step regs.data_value regs.data_read regs.direction
        regs.input_mask) (regs, [])) b hb ho hn hd hm
    (by rw [hF.2.2.2.1]; exact hs0) (by rw [hF.2.2.2.2.1]; exact hs1)
    (by rw [hF.2.2.2.2.2.1]; exact hs2)
  rw [hstep]
  refine ⟨(foldl_avoid regs.data_value regs.data_read regs.direction
      regs.input_mask (List.range' (b + 1) (31 - b)) _ b hb hl2).1.trans ?_,
    (foldl_avoid regs.data_value regs.data_read regs.direction
      regs.input_mask (List.range' (b + 1) (31 - b)) _ b hb hl2).2.2.trans ?_⟩
  · exact hA.1
  · rw [hA.2.2]
    rfl

/-- Bit `b` of the byte mask `0xff`. -/
theorem testBit_mask255 (b : Nat) : Nat.testBit 255 b = decide (b < 8) := by
  rw [show (255 : Nat) = 2 ^ 8 - 1 from by norm_num, Nat.testBit_two_pow_sub_one]

/-- Bit `b` of the byte mask `0xff <<< 8`. -/
theorem testBit_mask255_8 (b : Nat) :
    Nat.testBit 65280 b = (decide (8 ≤ b) && decide (b - 8 < 8)) := by
  rw [show (65280 : Nat) = 255 <<< 8 from by norm_num [Nat.shiftLeft_eq], Nat.testBit_shiftLeft,
    testBit_mask255]

/-- Bit `b` of the byte mask `0xff <<< 16`. -/
theorem testBit_mask255_16 (b : Nat) :
    Nat.testBit 16711680 b = (decide (16 ≤ b) && decide (b - 16 < 8)) := by
  rw [show (16711680 : Nat) = 255 <<< 16 from by norm_num [Nat.shiftLeft_eq], Nat.testBit_shiftLeft,
    testBit_mask255]

/-- Bit `b` of the byte mask `0xff <<< 24`. -/
theorem testBit_mask255_24 (b : Nat) :
    Nat.testBit 4278190080 b = (decide (24 ≤ b) && decide (b - 24 < 8)) := by
  rw [show (4278190080 : Nat) = 255 <<< 24 from by norm_num [Nat.shiftLeft_eq], Nat.testBit_shiftLeft,
    testBit_mask255]

/-- Per-bit behaviour of the command-source merge: inside the 8-bit group at
offset `g`, the merged value takes bit `b` from `value` when the group is
ARM-owned and from `old_value` otherwise. -/
theorem update_value_control_source_testBit (regs : GPIORegs)
    (old_value value g b : Nat)
    (hg : g = 0 ∨ g = 8 ∨ g = 16 ∨ g = 24) (hgb : g ≤ b) (hbg : b < g + 8) :
    (update_value_control_source regs old_value value).testBit b =
      if ASPEED_SOURCE_ARM = cmd_source_of regs g then value.testBit b
      else old_value.testBit b := by
  simp only [update_value_control_source, List.foldl_cons, List.foldl_nil]
  rcases hg with hg | hg | hg | hg <;> subst hg
  · simp [apply_ite (fun x : Nat => x.testBit b), Nat.testBit_or, Nat.testBit_and,
      testBit_mask255, testBit_mask255_8, testBit_mask255_16, testBit_mask255_24,
      show b < 8 by omega, show ¬(8 ≤ b) by omega,
      show ¬(16 ≤ b) by omega, show ¬(24 ≤ b) by omega]
  · simp [apply_ite (fun x : Nat => x.testBit b), Nat.testBit_or, Nat.testBit_and,
      testBit_mask255, testBit_mask255_8, testBit_mask255_16, testBit_mask255_24,
      show ¬(b < 8) by omega, show (8 : Nat) ≤ b from hgb, show b - 8 < 8 by omega,
      show ¬(16 ≤ b) by omega, show ¬(24 ≤ b) by omega]
  · simp [apply_ite (fun x : Nat => x.testBit b), Nat.testBit_or, Nat.testBit_and,
      testBit_mask255, testBit_mask255_8, testBit_mask255_16, testBit_mask255_24,
      show ¬(b < 8) by omega, show ¬(b - 8 < 8) by omega,
      show (16 : Nat) ≤ b from hgb, show b - 16 < 8 by omega,
      show ¬(24 ≤ b) by omega]
  · simp [apply_ite (fun x : Nat => x.testBit b), Nat.testBit_or, Nat.testBit_and,
      testBit_mask255, testBit_mask255_8, testBit_mask255_16, testBit_mask255_24,
      show ¬(b < 8) by omega, show ¬(b - 8 < 8) by omega,
      show ¬(b - 16 < 8) by omega, show (24 : Nat) ≤ b from hgb,
      show b - 24 < 8 by omega]

/-- The direction register after `_write_direction` is the arbitrated merge. -/
theorem write_direction_direction (regs : GPIORegs) (props : GPIOSetProperties)
    (val : Nat) :
    (write_direction regs props val).1.direction =
      update_value_control_source regs regs.direction
        (val &&& (props.output ||| compl32 props.input)) :=
  (update_frame _).2.1

/-- The stored written value (`data_read`) after `_write_data_value` is the
arbitrated merge. -/
theorem write_data_value_data_read (regs : GPIORegs) (props : GPIOSetProperties)
    (val : Nat) :
    (write_data_value regs props val).1.data_read =
      update_value_control_source regs regs.data_read
        (val &&& (props.output ||| compl32 props.input)) :=
  (update_frame _).1

/-- The interrupt-enable register after `_write_int_enable` is the
arbitrated merge. -/
theorem write_int_enable_int_enable (regs : GPIORegs) (props : GPIOSetProperties)
    (val : Nat) :
    (write_int_enable regs props val).1.int_enable =
      update_value_control_source regs regs.int_enable val :=
  (update_frame _).2.2.1

/-- The sensitivity registers after their writes are arbitrated merges. -/
theorem write_int_sens_0_int_sens_0 (regs : GPIORegs) (props : GPIOSetProperties)
    (val : Nat) :
    (write_int_sens_0 regs props val).1.int_sens_0 =
      update_value_control_source regs regs.int_sens_0 val :=
  (update_frame _).2.2.2.1

theorem write_int_sens_1_int_sens_1 (regs : GPIORegs) (props : GPIOSetProperties)
    (val : Nat) :
    (write_int_sens_1 regs props val).1.int_sens_1 =
      update_value_control_source regs regs.int_sens_1 val :=
  (update_frame _).2.2.2.2.1

theorem write_int_sens_2_int_sens_2 (regs : GPIORegs) (props : GPIOSetProperties)
    (val : Nat) :
    (write_int_sens_2 regs props val).1.int_sens_2 =
      update_value_control_source regs regs.int_sens_2 val :=
  (update_frame _).2.2.2.2.2.1

/-- C1: for a bit configured rising-edge (3-bit sensitivity code 1) that is
an output in `direction` and not suppressed by `input_mask`, a 0-to-1
transition of the bit (old committed `data_value` bit 0, incoming
`data_read` bit 1) sets that `int_status` bit and raises exactly one
interrupt event `(b, 1)`; a 1-to-0 transition under the same mode leaves
`int_status` bit `b` unchanged and raises no event at `b`.  The third
conjunct states the canonical write path: an ARM-owned data-value register
write whose (legality-masked) value drives the bit from 0 to 1 sets the
status bit and pulses once. -/
theorem c1_rising_edge_interrupt (regs : GPIORegs) (b : Nat) (hb : b < 32)
    (hs0 : regs.int_sens_0.testBit b = true)
    (hs1 : regs.int_sens_1.testBit b = false)
    (hs2 : regs.int_sens_2.testBit b = false)
    (hd : regs.direction.testBit b = true)
    (hm : regs.input_mask.testBit b = false) :
    (regs.data_value.testBit b = false → regs.data_read.testBit b = true →
      (aspeed_gpio_update regs).1.int_status.testBit b = true ∧
      ((aspeed_gpio_update regs).2.filter (fun e => e.1 == b)) = [(b, 1)]) ∧
    (regs.data_value.testBit b = true → regs.data_read.testBit b = false →
      (aspeed_gpio_update regs).1.int_status.testBit b = regs.int_status.testBit b ∧
      ((aspeed_gpio_update regs).2.filter (fun e => e.1 == b)) = []) ∧
    (∀ props val g, (g = 0 ∨ g = 8 ∨ g = 16 ∨ g = 24) → g ≤ b → b < g + 8 →
      ASPEED_SOURCE_ARM = cmd_source_of regs g →
      regs.data_value.testBit b = false →
      (val &&& (props.output ||| compl32 props.input)).testBit b = true →
      (write_data_value regs props val).1.int_status.testBit b = true ∧
      ((write_data_value regs props val).2.filter (fun e => e.1 == b)) = [(b, 1)]) := by
  refine ⟨fun ho hn => update_rise_fires regs b hb hs0 hs2 hd hm ho hn,
    fun ho hn => update_fall_no_fire regs b hb hs0 hs1 hs2 hd hm ho hn,
    fun props val g hg hgb hbg harm ho hv => ?_⟩
  have hn : (update_value_control_source regs regs.data_read
      (val &&& (props.output ||| compl32 props.input))).testBit b = true := by
    rw [update_value_control_source_testBit regs _ _ g b hg hgb hbg, if_pos harm]
    exact hv
  exact update_rise_fires _ b hb hs0 hs2 hd hm ho hn

/-- C1 witness: the theorem applied to the concrete bank `c1_example_regs`
at bit 3. -/
theorem c1_rising_edge_interrupt_witness :
    (c1_example_regs.int_sens_0.testBit 3 = true ∧
     c1_example_regs.direction.testBit 3 = true ∧
     c1_example_regs.input_mask.testBit 3 = false ∧
     c1_example_regs.data_value.testBit 3 = false ∧
     c1_example_regs.data_read.testBit 3 = true) ∧
    ((aspeed_gpio_update c1_example_regs).1.int_status.testBit 3 = true ∧
     ((aspeed_gpio_update c1_example_regs).2.filter (fun e => e.1 == 3)) = [(3, 1)]) :=
  ⟨by decide,
   (c1_rising_edge_interrupt c1_example_regs 3 (by decide) (by decide) (by decide)
     (by decide) (by decide) (by decide)).1 (by decide) (by decide)⟩

/-- C5 counterexample: bit 3 of `c5_example_regs` is configured level-high
(sensitivity code 3) and is 1 both before and after a data-value write of
the same value, yet `int_status` bit 3 stays clear — the evaluation loop is
diff-gated and skips unchanged bits, so "any write after which the bit is
1" does not set the status bit when the bit was already 1. -/
theorem c5_level_high_counterexample :
    c5_example_regs.int_sens_0.testBit 3 = true ∧
    c5_example_regs.int_sens_1.testBit 3 = true ∧
    c5_example_regs.int_sens_2.testBit 3 = false ∧
    c5_example_regs.direction.testBit 3 = true ∧
    c5_example_regs.input_mask.testBit 3 = false ∧
    (write_data_value c5_example_regs props_abcd 8).1.data_value.testBit 3 = true ∧
    (write_data_value c5_example_regs props_abcd 8).1.int_status.testBit 3 = false := by
  decide

/-- C5 (amended): for a bit configured level-high (code 3), a write whose
update pass processes the bit — i.e. the bit actually changes from 0 to 1
and is an output, unmasked — sets the `int_status` bit; a write that leaves
the bit's committed value unchanged skips evaluation for it (the loop is
gated on `diff`), leaving `int_status` bit `b` exactly as before. -/
theorem c5_level_high_on_change (regs : GPIORegs) (b : Nat) (hb : b < 32)
    (hs0 : regs.int_sens_0.testBit b = true)
    (hs1 : regs.int_sens_1.testBit b = true)
    (hs2 : regs.int_sens_2.testBit b = false)
    (hd : regs.direction.testBit b = true)
    (hm : regs.input_mask.testBit b = false) :
    (regs.data_value.testBit b = false → regs.data_read.testBit b = true →
      (aspeed_gpio_update regs).1.int_status.testBit b = true) ∧
    (regs.data_value.testBit b = regs.data_read.testBit b →
      (aspeed_gpio_update regs).1.int_status.testBit b =
        regs.int_status.testBit b) :=
  ⟨fun ho hn => (update_rise_fires regs b hb hs0 hs2 hd hm ho hn).1,
   fun h => (update_unchanged_bit regs b h).1⟩

/-- C5 witness: the amended theorem applied to `c5_rise_regs` at bit 3. -/
theorem c5_level_high_on_change_witness :
    (c5_rise_regs.int_sens_0.testBit 3 = true ∧
     c5_rise_regs.int_sens_1.testBit 3 = true ∧
     c5_rise_regs.data_value.testBit 3 = false ∧
     c5_rise_regs.data_read.testBit 3 = true) ∧
    (aspeed_gpio_update c5_rise_regs).1.int_status.testBit 3 = true :=
  ⟨by decide,
   (c5_level_high_on_change c5_rise_regs 3 (by decide) (by decide) (by decide)
     (by decide) (by decide) (by decide)).1 (by decide) (by decide)⟩

/-- C3 counterexample: with group 0 owned by LPC (`cmd_source_0 = 1`), a
write of 0 to the data-value register leaves the stored written value
(`data_read`) group unchanged, but the `data_value` register itself — what a
read of the data-value offset returns — still changes in that group: the
write triggers the interrupt evaluation engine, which commits the
pre-existing `data_read` difference into `data_value`.  So, read back, the
data-value register's group-0 bits are NOT left unchanged by the write. -/
theorem c3_cmd_source_counterexample :
    cmd_source_of c3_example_regs 0 ≠ ASPEED_SOURCE_ARM ∧
    c3_example_regs.data_value.testBit 0 = false ∧
    (write_data_value c3_example_regs props_abcd 0).1.data_value.testBit 0 = true := by
  decide

/-- C3 (amended): for each 8-bit group at offset `g` of an arbitrated
register, when the group's command source is not ARM the setter leaves the
stored field's bits of that group unchanged (the field is `data_read` for
the data-value register, whose committed `data_value` may still change via
the evaluation engine), and when the source is ARM the group's bits come
from the written value (legality-masked for data-value and direction). -/
theorem c3_cmd_source_arbitration (regs : GPIORegs) (props : GPIOSetProperties)
    (val g b : Nat) (hg : g = 0 ∨ g = 8 ∨ g = 16 ∨ g = 24)
    (hgb : g ≤ b) (hbg : b < g + 8) :
    (¬(ASPEED_SOURCE_ARM = cmd_source_of regs g) →
      (write_data_value regs props val).1.data_read.testBit b =
        regs.data_read.testBit b ∧
      (write_direction regs props val).1.direction.testBit b =
        regs.direction.testBit b ∧
      (write_int_enable regs props val).1.int_enable.testBit b =
        regs.int_enable.testBit b ∧
      (write_int_sens_0 regs props val).1.int_sens_0.testBit b =
        regs.int_sens_0.testBit b ∧
      (write_int_sens_1 regs props val).1.int_sens_1.testBit b =
        regs.int_sens_1.testBit b ∧
      (write_int_sens_2 regs props val).1.int_sens_2.testBit b =
        regs.int_sens_2.testBit b ∧
      (write_reset_tol regs props val).1.reset_tol.testBit b =
        regs.reset_tol.testBit b ∧
      (write_debounce_1 regs props val).1.debounce_1.testBit b =
        regs.debounce_1.testBit b ∧
      (write_debounce_2 regs props val).1.debounce_2.testBit b =
        regs.debounce_2.testBit b) ∧
    (ASPEED_SOURCE_ARM = cmd_source_of regs g →
      (write_data_value regs props val).1.data_read.testBit b =
        (val &&& (props.output ||| compl32 props.input)).testBit b ∧
      (write_direction regs props val).1.direction.testBit b =
        (val &&& (props.output ||| compl32 props.input)).testBit b ∧
      (write_int_enable regs props val).1.int_enable.testBit b = val.testBit b ∧
      (write_int_sens_0 regs props val).1.int_sens_0.testBit b = val.testBit b ∧
      (write_int_sens_1 regs props val).1.int_sens_1.testBit b = val.testBit b ∧
      (write_int_sens_2 regs props val).1.int_sens_2.testBit b = val.testBit b ∧
      (write_reset_tol regs props val).1.reset_tol.testBit b = val.testBit b ∧
      (write_debounce_1 regs props val).1.debounce_1.testBit b = val.testBit b ∧
      (write_debounce_2 regs props val).1.debounce_2.testBit b = val.testBit b) := by
  have hmrg : ∀ old v : Nat, (update_value_control_source regs old v).testBit b =
      if ASPEED_SOURCE_ARM = cmd_source_of regs g then v.testBit b
      else old.testBit b :=
    fun old v => update_value_control_source_testBit regs old v g b hg hgb hbg
  constructor <;> intro hsrc
  · refine ⟨?_, ?_, ?_, ?_, ?_, ?_, ?_, ?_, ?_⟩
    · rw [write_data_value_data_read, hmrg, if_neg hsrc]
    · rw [write_direction_direction, hmrg, if_neg hsrc]
    · rw [write_int_enable_int_enable, hmrg, if_neg hsrc]
    · rw [write_int_sens_0_int_sens_0, hmrg, if_neg hsrc]
    · rw [write_int_sens_1_int_sens_1, hmrg, if_neg hsrc]
    · rw [write_int_sens_2_int_sens_2, hmrg, if_neg hsrc]
    · show (update_value_control_source regs regs.reset_tol val).testBit b = _
      rw [hmrg, if_neg hsrc]
    · show (update_value_control_source regs regs.debounce_1 val).testBit b = _
      rw [hmrg, if_neg hsrc]
    · show (update_value_control_source regs regs.debounce_2 val).testBit b = _
      rw [hmrg, if_neg hsrc]
  · refine ⟨?_, ?_, ?_, ?_, ?_, ?_, ?_, ?_, ?_⟩
    · rw [write_data_value_data_read, hmrg, if_pos hsrc]
    · rw [write_direction_direction, hmrg, if_pos hsrc]
    · rw [write_int_enable_int_enable, hmrg, if_pos hsrc]
    · rw [write_int_sens_0_int_sens_0, hmrg, if_pos hsrc]
    · rw [write_int_sens_1_int_sens_1, hmrg, if_pos hsrc]
    · rw [write_int_sens_2_int_sens_2, hmrg, if_pos hsrc]
    · show (update_value_control_source regs regs.reset_tol val).testBit b = _
      rw [hmrg, if_pos hsrc]
    · show (update_value_control_source regs regs.debounce_1 val).testBit b = _
      rw [hmrg, if_pos hsrc]
    · show (update_value_control_source regs regs.debounce_2 val).testBit b = _
      rw [hmrg, if_pos hsrc]

/-- C3 witness: the amended theorem applied to `c3_example_regs` (group 0
owned by LPC) with written value 0 at bit 0. -/
theorem c3_cmd_source_arbitration_witness :
    (¬(ASPEED_SOURCE_ARM = cmd_source_of c3_example_regs 0)) ∧
    (write_data_value c3_example_regs props_abcd 0).1.data_read.testBit 0 =
      c3_example_regs.data_read.testBit 0 ∧
    (write_direction c3_example_regs props_abcd 0).1.direction.testBit 0 =
      c3_example_regs.direction.testBit 0 :=
  ⟨by decide,
   let h := (c3_cmd_source_arbitration c3_example_regs props_abcd 0 0 0
     (Or.inl rfl) (by decide) (by decide)).1 (by decide)
   ⟨h.1, h.2.1⟩⟩

/-- The engine preserves `data_value` bit `b` whenever the post-state
direction marks `b` as input or the post-state input mask suppresses it
(the engine itself never changes `direction`/`input_mask`). -/
theorem update_dv_post_cond (r : GPIORegs) (b : Nat) (hb : b < 32)
    (h : (aspeed_gpio_update r).1.direction.testBit b = false ∨
         (aspeed_gpio_update r).1.input_mask.testBit b = true) :
    (aspeed_gpio_update r).1.data_value.testBit b = r.data_value.testBit b := by
  apply update_dv_preserved r b hb
  rcases h with h | h
  · left
    rw [← (update_frame r).2.1]
    exact h
  · right
    rw [← (update_frame r).2.2.2.2.2.2.2.2.2.2.2]
    exact h

/-- C4: across every register write helper and the external pin-set path,
`data_value` bit `b` only changes when the (post-write) `direction` marks
it an output and the (post-write) `input_mask` does not suppress it; and a
set `int_status` bit survives every operation except a direct write to the
interrupt-status register — the evaluation engine itself only ever sets
status bits. -/
theorem c4_data_value_and_status_invariants (st : GPIOSetter) (regs : GPIORegs)
    (props : GPIOSetProperties) (val b : Nat) (hb : b < 32) :
    (((applySetter st regs props val).1.direction.testBit b = false ∨
      (applySetter st regs props val).1.input_mask.testBit b = true) →
      (applySetter st regs props val).1.data_value.testBit b =
        regs.data_value.testBit b) ∧
    (st ≠ GPIOSetter.int_status → regs.int_status.testBit b = true →
      (applySetter st regs props val).1.int_status.testBit b = true) ∧
    (regs.int_status.testBit b = true →
      (aspeed_gpio_update regs).1.int_status.testBit b = true) ∧
    (∀ s : AspeedGPIOState, ∀ pin : Nat, ∀ level : Bool, ∀ i : Nat,
      ((((aspeed_gpio_set_pin_level s pin level).1.sets i).direction.testBit b = false ∨
        ((aspeed_gpio_set_pin_level s pin level).1.sets i).input_mask.testBit b = true) →
        ((aspeed_gpio_set_pin_level s pin level).1.sets i).data_value.testBit b =
          (s.sets i).data_value.testBit b) ∧
      ((s.sets i).int_status.testBit b = true →
        ((aspeed_gpio_set_pin_level s pin level).1.sets i).int_status.testBit b =
          true)) := by
  refine ⟨?_, ?_, update_status_mono regs b, ?_⟩
  · cases st <;>
      first
        | exact fun h => update_dv_post_cond _ b hb h
        | exact fun _ => rfl
  · cases st <;> intro hne hst <;>
      first
        | exact absurd rfl hne
        | exact update_status_mono _ b hst
        | exact hst
  · intro s pin level i
    simp only [aspeed_gpio_set_pin_level]
    by_cases hi : i = aspeed_get_set_idx_from_pin s.ctrl pin
    · simp only [hi, if_pos rfl]
      cases level <;>
        exact ⟨fun h => update_dv_post_cond _ b hb h,
               fun hst => update_status_mono _ b hst⟩
    · simp [if_neg hi]

/-- C4 witness: the invariants applied to a concrete direction write on the
all-zero bank at bit 3 (the written direction leaves bit 3 an input, so
`data_value` bit 3 is untouched; the set status bit of `c5_example_regs`
survives a data-value write). -/
theorem c4_data_value_and_status_invariants_witness :
    ((applySetter GPIOSetter.direction {} props_abcd 0 ).1.direction.testBit 3 =
      false ∧ GPIOSetter.direction ≠ GPIOSetter.int_status) ∧
    (applySetter GPIOSetter.direction {} props_abcd 0 ).1.data_value.testBit 3 =
      (({} : GPIORegs)).data_value.testBit 3 :=
  ⟨⟨by decide, by decide⟩,
   (c4_data_value_and_status_invariants GPIOSetter.direction {} props_abcd 0 3
     (by decide)).1 (Or.inl (by decide))⟩

/-- C9: for each of the three chip descriptors, the pin-to-(bank, bit)
translation is injective on valid pins, and the gap adjustment adds 4
exactly for pins at or past a nonzero gap, leaving all other pins
unchanged. -/
theorem c9_bank_and_bit_injective (c : AspeedGPIOController) (hc : c ∈ controllers)
    (p1 p2 : Nat) (h1 : p1 < c.nr_gpio_pins) (h2 : p2 < c.nr_gpio_pins) :
    (p1 ≠ p2 → aspeed_bank_and_bit c p1 ≠ aspeed_bank_and_bit c p2) ∧
    (∀ p : Nat,
      (c.gap ≠ 0 ∧ c.gap ≤ p → aspeed_adjust_pin c p = p + 4) ∧
      (c.gap = 0 ∨ p < c.gap → aspeed_adjust_pin c p = p)) := by
  constructor
  · intro hne heq
    simp only [aspeed_bank_and_bit, aspeed_get_set_idx_from_pin,
      Nat.shiftRight_eq_div_pow, Prod.mk.injEq] at heq
    norm_num at heq
    fin_cases hc <;>
      simp only [aspeed_adjust_pin] at heq h1 h2 <;>
      split_ifs at heq <;> omega
  · intro p
    constructor
    · intro h
      simp [aspeed_adjust_pin, h]
    · intro h
      have hcond : ¬(c.gap ≠ 0 ∧ c.gap ≤ p) := by
        rcases h with h | h
        · simp [h]
        · intro hh
          omega
      simp [aspeed_adjust_pin, hcond]

/-- C9 witness: the theorem applied to the ast2400 descriptor at pins 0
and 1 (distinct pins map to distinct (bank, bit) pairs), plus the gap
behaviour at pins 196 and 0. -/
theorem c9_bank_and_bit_injective_witness :
    (0 ≠ 1 ∧ (0 : Nat) < 216 ∧ (1 : Nat) < 216) ∧
    aspeed_bank_and_bit (controllers.getD 2 ast2600_ctrl) 0 ≠
      aspeed_bank_and_bit (controllers.getD 2 ast2600_ctrl) 1 :=
  ⟨by decide,
   (c9_bank_and_bit_injective (controllers.getD 2 ast2600_ctrl) (by decide)
     0 1 (by decide) (by decide)).1 (by decide)⟩

/-- Every write helper preserves the command-source bit invariant: the two
command-source setters mask the incoming value with `ASPEED_CMD_SRC_MASK`,
and no other helper touches `cmd_source_0`/`cmd_source_1`. -/
theorem applySetter_cmd_source_inv (st : GPIOSetter) (regs : GPIORegs)
    (props : GPIOSetProperties) (val : Nat) (h : cmd_source_inv regs) :
    cmd_source_inv (applySetter st regs props val).1 := by
  have hmask : ∀ v : Nat, (v &&& ASPEED_CMD_SRC_MASK) &&& compl32 ASPEED_CMD_SRC_MASK
      = 0 := by
    intro v
    rw [Nat.and_assoc, show ASPEED_CMD_SRC_MASK &&& compl32 ASPEED_CMD_SRC_MASK = 0
      from by decide, Nat.and_zero]
  cases st <;>
    simp only [applySetter, write_data_value, write_direction, write_int_enable,
      write_int_sens_0, write_int_sens_1, write_int_sens_2, write_int_status,
      write_reset_tol, write_debounce_1, write_debounce_2, write_cmd_source_0,
      write_cmd_source_1, write_input_mask] <;>
    first
      | exact ⟨by rw [(update_frame _).2.2.2.2.2.2.2.1]; exact h.1,
               by rw [(update_frame _).2.2.2.2.2.2.2.2.1]; exact h.2⟩
      | exact ⟨hmask val, h.2⟩
      | exact ⟨h.1, hmask val⟩
      | exact h

/-- The external pin-set path preserves the command-source bit invariant on
every bank. -/
theorem set_pin_level_cmd_source_inv (s : AspeedGPIOState) (pin : Nat)
    (level : Bool) (i : Nat) (h : ∀ j, cmd_source_inv (s.sets j)) :
    cmd_source_inv ((aspeed_gpio_set_pin_level s pin level).1.sets i) := by
  simp only [aspeed_gpio_set_pin_level]
  by_cases hi : i = aspeed_get_set_idx_from_pin s.ctrl pin
  · simp only [hi]
    rw [if_pos trivial]
    cases level <;>
      exact ⟨by rw [(update_frame _).2.2.2.2.2.2.2.1]; exact (h _).1,
             by rw [(update_frame _).2.2.2.2.2.2.2.2.1]; exact (h _).2⟩
  · simp only [if_neg hi]
    exact h i

/-- A bus-level write preserves the command-source bit invariant on every
bank. -/
theorem mmio_write_cmd_source_inv (s : AspeedGPIOState) (offset data size i : Nat)
    (h : ∀ j, cmd_source_inv (s.sets j)) :
    cmd_source_inv ((aspeed_gpio_mmio_write s offset data size).1.sets i) := by
  unfold aspeed_gpio_mmio_write
  split_ifs with hv
  · unfold aspeed_gpio_write
    split
    · exact h i
    · exact h i
    · simp only
      by_cases hi : i = (gpios offset).set_idx
      · simp only [hi, if_pos rfl]
        exact applySetter_cmd_source_inv _ _ _ _ (h _)
      · simp only [if_neg hi]
        exact h i
  · exact h i

/-- C10: starting from reset, after any sequence of bus writes and pin
sets, every bank's `cmd_source_0` and `cmd_source_1` have at most bits 0,
8, 16 and 24 set (their value ANDed with the complement of
`ASPEED_CMD_SRC_MASK` is zero). -/
theorem c10_cmd_source_bits_invariant (s0 : AspeedGPIOState) (ops : List GPIOOp)
    (i : Nat) :
    cmd_source_inv ((ops.foldl aspeed_apply_op (aspeed_gpio_reset s0)).sets i) := by
  have hstart : ∀ j, cmd_source_inv ((aspeed_gpio_reset s0).sets j) := by
    intro j
    exact ⟨Nat.zero_and _, Nat.zero_and _⟩
  have main : ∀ (ops : List GPIOOp) (s : AspeedGPIOState),
      (∀ j, cmd_source_inv (s.sets j)) →
      ∀ j, cmd_source_inv ((ops.foldl aspeed_apply_op s).sets j) := by
    intro ops
    induction ops with
    | nil => exact fun s h j => h j
    | cons op t ih =>
      intro s h j
      simp only [List.foldl_cons]
      apply ih
      intro k
      cases op with
      | mmio_write offset data size => exact mmio_write_cmd_source_inv s _ _ _ k h
      | set_pin pin level => exact set_pin_level_cmd_source_inv s _ _ k h
  exact main ops (aspeed_gpio_reset s0) hstart i

/-- C2: evaluation of the dispatch at the failing input, offset 0x800
(the first 1.8V register).  The claim says this offset maps to table index
`(0x800 - 0x600) / 4 = 128` (the 1.8V ABCD data-value slot, as the source's
own macro table records) and the read returns that bank's `data_value`.
The code instead computes `(0x800 - 600) >> 2 = 362` (decimal 600), and the
dispatch then indexes `gpios` with the raw byte offset 0x800 anyway, where
there is no entry, so the read is logged as having no getter and returns 0
rather than the bank's `data_value` 0x55. -/
theorem c2_offset_translation_at_0x800 :
    aspeed_offset_to_idx 0x800 = some 362 ∧
    (362 : Nat) ≠ GPIO_18_ABCD_DATA_VALUE ∧
    (gpios 0x800).get = none ∧
    (c2_example_state.sets 0).data_value = 0x55 ∧
    aspeed_gpio_read c2_example_state 0x800 4 = 0 := by
  decide

/-- C6: evaluation of `aspeed_gpio_set_pin_level` at the failing input.
Clearing pin 1 on a bank whose `data_read` is 0xff should, per the claim,
clear only bit 1 (leaving 0xfd); the source's `data_read &= !mask` applies
C logical negation to the nonzero mask, producing `data_read &= 0`, so the
whole register is wiped to 0. -/
theorem c6_set_pin_level_clears_all :
    (c6_example_state.sets 0).data_read = 0xff ∧
    c_lognot ((1 <<< 1) % 2 ^ 32) = 0 ∧
    ((aspeed_gpio_set_pin_level c6_example_state 1 false).1.sets 0).data_read = 0 ∧
    ((aspeed_gpio_set_pin_level c6_example_state 1 false).1.sets 0).data_read ≠ 0xfd := by
  decide

/-- C7: an access whose size is not 4 bytes is rejected by the register
interface: the bus-level read returns 0 (the read callback itself also
checks the size), and the bus-level write leaves the state untouched and
raises no interrupt event. -/
theorem c7_non_word_access_rejected (s : AspeedGPIOState) (offset data size : Nat)
    (h : size ≠ 4) :
    aspeed_gpio_mmio_read s offset size = 0 ∧
    aspeed_gpio_read s offset size = 0 ∧
    (aspeed_gpio_mmio_write s offset data size).1 = s ∧
    (aspeed_gpio_mmio_write s offset data size).2 = [] := by
  have hv : aspeed_gpio_ops_valid_access size = false := by
    simp only [aspeed_gpio_ops_valid_access]
    simp only [Bool.and_eq_false_iff, decide_eq_false_iff_not]
    omega
  refine ⟨?_, ?_, ?_, ?_⟩
  · simp [aspeed_gpio_mmio_read, hv]
  · simp [aspeed_gpio_read, h]
  · simp [aspeed_gpio_mmio_write, hv]
  · simp [aspeed_gpio_mmio_write, hv]

/-- C7 witness: a 2-byte write at offset 0 (a writable slot) is dropped. -/
theorem c7_non_word_access_rejected_witness :
    ((2 : Nat) ≠ 4) ∧
    (aspeed_gpio_mmio_read c7_example_state 0 2 = 0 ∧
     aspeed_gpio_read c7_example_state 0 2 = 0 ∧
     (aspeed_gpio_mmio_write c7_example_state 0 0xff 2).1 = c7_example_state ∧
     (aspeed_gpio_mmio_write c7_example_state 0 0xff 2).2 = []) :=
  ⟨by decide, c7_non_word_access_rejected c7_example_state 0 0xff 2 (by decide)⟩

/-- C8: evaluation of a read of `GPIO_ABCD_DATA_READ` (byte offset 0x0C0)
at the failing input.  The table entry for index `0x0C0 >> 2 = 48` is the
ABCD data-read getter, but the dispatch indexes `gpios` with the raw byte
offset 192, an uninitialized slot with no getter, so the read returns 0
instead of the bank's `data_read` 0x12345678.  (The read path performs no
state mutation: `aspeed_gpio_read` is a pure value computation in this
model, matching the source, so the no-state-change half of the claim
holds.) -/
theorem c8_data_read_read_returns_zero :
    (gpios GPIO_ABCD_DATA_READ).get = some GPIOGetter.data ∧
    (gpios 0x0C0).get = none ∧
    (c8_example_state.sets 0).data_read = 0x12345678 ∧
    aspeed_gpio_read c8_example_state 0x0C0 4 = 0 := by
  decide

end AspeedGpio
